import Mathlib

/-!
Verification of the CRAM name-tokenizer decoder
(`noodles-cram/src/codecs/name_tokenizer/decode.rs`).

The decoder is shallowly embedded: byte sources are `List Nat` (each entry one
byte), per-column byte cursors are `ByteCursor`, fallible operations return
`Except DecErr`.  Rust panics (failed `assert!`, `unimplemented!`, index out of
bounds, arithmetic underflow) are modelled as the distinguished error
`DecErr.panicked`, which is different from an `io::Error` value returned to the
caller (`DecErr.eof` for `ErrorKind::UnexpectedEof`, `DecErr.invalidData` for
`ErrorKind::InvalidData`).  Loops are written with explicit fuel; the marker
`DecErr.outOfFuel` is returned when fuel runs out and is proved unreachable for
the fuel the decoder supplies.

The token-type enumeration (`Type`), the variable-length integer reader
(`read_uint7`) and the two entropy back-ends (`rans_nx16::decode`,
`aac::decode`) are declared in modules that are not part of the excerpted
source; they are modelled from the spec where they are needed, as documented on
the corresponding definitions.
-/

namespace NameTok

/-- Outcome classification for the embedded decoder.  `eof` models a returned
`io::Error` of kind `UnexpectedEof`, `invalidData` one of kind `InvalidData`.
`panicked` models a Rust panic (a failed `assert!`, an `unimplemented!()`, an
out-of-bounds index or an arithmetic underflow): a panic aborts the decode but
is not an error value returned to the caller.  `outOfFuel` is an artifact of
the fuelled loops and never occurs for the fuel the decoder supplies. -/
inductive DecErr where
  | eof
  | invalidData
  | panicked
  | outOfFuel
deriving DecidableEq, Repr

/-- The token-type enumeration `Type` of the name tokenizer (one tag per
per-column byte stream). -/
inductive TType where
  | tType
  | tString
  | tChar
  | tDigits0
  | tDZLen
  | tDup
  | tDiff
  | tDigits
  | tDelta
  | tDelta0
  | tMatch
  | tNop
  | tEnd
deriving DecidableEq, Repr

/-- Modelled from the spec: `impl TryFrom<u8> for Type` lives in the
name-tokenizer module root, which is not part of the excerpted source.  Per the
spec, the sub-block header byte's flag bits (`0x80`, `0x40`) are masked out and
the remaining bits are decoded into a token-kind tag; an unrecognized tag byte
is an `InvalidData` failure.  (The reference fixture forces this masking
reading: its new-column header bytes `0x80` must decode to the generic type
tag `0`.) -/
def TType.tryFrom (n : Nat) : Except DecErr TType :=
  match n % 64 with
  | 0 => .ok .tType
  | 1 => .ok .tString
  | 2 => .ok .tChar
  | 3 => .ok .tDigits0
  | 4 => .ok .tDZLen
  | 5 => .ok .tDup
  | 6 => .ok .tDiff
  | 7 => .ok .tDigits
  | 8 => .ok .tDelta
  | 9 => .ok .tDelta0
  | 10 => .ok .tMatch
  | 11 => .ok .tNop
  | 12 => .ok .tEnd
  | _ => .error .invalidData

/-- Modelled from the spec: `impl From<Type> for u8`, the byte value of each
token-kind tag (the inverse of the masked `TryFrom`). -/
def TType.toByte : TType → Nat
  | .tType => 0
  | .tString => 1
  | .tChar => 2
  | .tDigits0 => 3
  | .tDZLen => 4
  | .tDup => 5
  | .tDiff => 6
  | .tDigits => 7
  | .tDelta => 8
  | .tDelta0 => 9
  | .tMatch => 10
  | .tNop => 11
  | .tEnd => 12

/-- `std::io::Cursor<Vec<u8>>`: an owned byte buffer together with a read
position.  `set` on a `TokenReader` replaces the buffer but keeps the
position; `get_ref().clone()` clones the whole buffer regardless of the
position. -/
structure ByteCursor where
  buf : List Nat
  pos : Nat
deriving DecidableEq, Repr

instance : Inhabited ByteCursor := ⟨⟨[], 0⟩⟩

/-- `read_u8` on a cursor: one byte at the current position, or
`UnexpectedEof`. -/
def ByteCursor.readU8 (c : ByteCursor) : Except DecErr (Nat × ByteCursor) :=
  match c.buf.drop c.pos with
  | [] => .error .eof
  | b :: _ => .ok (b, ⟨c.buf, c.pos + 1⟩)

/-- `read_u32::<LittleEndian>` on a cursor: four bytes, little-endian, or
`UnexpectedEof` when fewer than four bytes remain. -/
def ByteCursor.readU32le (c : ByteCursor) : Except DecErr (Nat × ByteCursor) :=
  match c.buf.drop c.pos with
  | b0 :: b1 :: b2 :: b3 :: _ =>
    .ok (b0 + 256 * b1 + 65536 * b2 + 16777216 * b3, ⟨c.buf, c.pos + 4⟩)
  | _ => .error .eof

/-- Helper for `BufRead::read_until`: the bytes up to and including the first
delimiter byte `0x00` (or all remaining bytes if there is none), together with
how many bytes were consumed. -/
def takeUntilNul : List Nat → List Nat × Nat
  | [] => ([], 0)
  | b :: rest =>
    if b = 0 then ([b], 1)
    else
      let (l, k) := takeUntilNul rest
      (b :: l, k + 1)

/-- `read_until(0x00, &mut buf)` followed by `buf.pop()`: collects bytes up to
the NUL delimiter, consuming the delimiter; the delimiter (or, at end of data,
the final byte) is popped.  On an in-memory cursor this read never fails. -/
def ByteCursor.readUntilNulPopped (c : ByteCursor) : List Nat × ByteCursor :=
  let (l, k) := takeUntilNul (c.buf.drop c.pos)
  (l.dropLast, ⟨c.buf, c.pos + k⟩)

/-- State machine step for `String::from_utf8` validation: `need` counts the
continuation bytes still expected, and `lo`/`hi` bound the next byte (the
first continuation byte of a sequence can have a restricted range; later ones
are always `0x80..=0xBF`). -/
def validUtf8From : Nat → Nat → Nat → List Nat → Bool
  | 0, _, _, [] => true
  | 0, _, _, b :: rest =>
    if b ≤ 0x7F then validUtf8From 0 0 0 rest
    else if b < 0xC2 then false
    else if b ≤ 0xDF then validUtf8From 1 0x80 0xBF rest
    else if b = 0xE0 then validUtf8From 2 0xA0 0xBF rest
    else if b = 0xED then validUtf8From 2 0x80 0x9F rest
    else if b ≤ 0xEF then validUtf8From 2 0x80 0xBF rest
    else if b = 0xF0 then validUtf8From 3 0x90 0xBF rest
    else if b ≤ 0xF3 then validUtf8From 3 0x80 0xBF rest
    else if b = 0xF4 then validUtf8From 3 0x80 0x8F rest
    else false
  | _ + 1, _, _, [] => false
  | need + 1, lo, hi, b :: rest =>
    if lo ≤ b ∧ b ≤ hi then validUtf8From need 0x80 0xBF rest else false

/-- `String::from_utf8` succeeds exactly on valid UTF-8. -/
def validUtf8 (l : List Nat) : Bool := validUtf8From 0 0 0 l

/-- Fuelled digit expansion for `u32::to_string` (most significant digit
first, ASCII).  The fuel `n + 1` always suffices since `n / 10 < n` for
`n ≥ 10`. -/
def decimalBytesAux : Nat → Nat → List Nat
  | 0, _ => []
  | fuel + 1, n =>
    if n < 10 then [48 + n] else decimalBytesAux fuel (n / 10) ++ [48 + n % 10]

/-- The ASCII bytes of `n.to_string` for an unsigned integer `n`. -/
def decimalBytes (n : Nat) : List Nat := decimalBytesAux (n + 1) n

/-- The UTF-8 bytes pushed by `String::push` for `char::from(u8)`: one byte
below `0x80`, otherwise the two-byte encoding of the code point. -/
def pushCharUtf8 (c : Nat) : List Nat :=
  if c < 0x80 then [c] else [0xC0 + c / 64, 0x80 + c % 64]

/-- A decoded token (`enum Token` in decode.rs).  `string` holds the UTF-8
bytes of the Rust `String`; `char` holds the code point of the `char` (always
a `u8` value, produced by `char::from`). -/
inductive Token where
  | char (c : Nat)
  | string (s : List Nat)
  | digits (d : Nat)
  | paddedDigits (d : Nat) (l : Nat)
  | nop
deriving DecidableEq, Repr

/-- The bytes a token contributes to the name being built (`names[n].push`,
`push_str` and the `format!` padding in `decode_single_name`): a `char` is
pushed as UTF-8, a `string` verbatim, `digits` in decimal, `paddedDigits`
zero-padded on the left to the stored width, and `nop` contributes nothing. -/
def Token.render : Token → List Nat
  | .char c => pushCharUtf8 c
  | .string s => s
  | .digits d => decimalBytes d
  | .paddedDigits d l =>
    let s := decimalBytes d
    List.replicate (l - s.length) 48 ++ s
  | .nop => []

/-- `struct TokenReader`: one byte cursor per token kind that can appear in a
column. -/
structure TokenReader where
  type_reader : ByteCursor
  string_reader : ByteCursor
  char_reader : ByteCursor
  digits0_reader : ByteCursor
  dz_len_reader : ByteCursor
  dup_reader : ByteCursor
  diff_reader : ByteCursor
  digits_reader : ByteCursor
  delta_reader : ByteCursor
  delta0_reader : ByteCursor
deriving DecidableEq, Repr

/-- `TokenReader::default()`: every cursor empty. -/
def TokenReader.default : TokenReader :=
  ⟨⟨[], 0⟩, ⟨[], 0⟩, ⟨[], 0⟩, ⟨[], 0⟩, ⟨[], 0⟩, ⟨[], 0⟩, ⟨[], 0⟩, ⟨[], 0⟩, ⟨[], 0⟩, ⟨[], 0⟩⟩

instance : Inhabited TokenReader := ⟨TokenReader.default⟩

/-- `TokenReader::get`: the cursor for a token kind.  The source match has no
arms for `DZLen`, `Match`, `Nop` and `End`; those fall into the
`unimplemented!` arm, which panics. -/
def TokenReader.get (r : TokenReader) (ty : TType) : Except DecErr ByteCursor :=
  match ty with
  | .tType => .ok r.type_reader
  | .tString => .ok r.string_reader
  | .tChar => .ok r.char_reader
  | .tDigits0 => .ok r.digits0_reader
  | .tDup => .ok r.dup_reader
  | .tDiff => .ok r.diff_reader
  | .tDigits => .ok r.digits_reader
  | .tDelta => .ok r.delta_reader
  | .tDelta0 => .ok r.delta0_reader
  | _ => .error .panicked

/-- `TokenReader::set`: replace the buffer of the cursor for a token kind,
keeping its read position (`*cursor.get_mut() = buf`).  The source match has
no arms for `Match`, `Nop` and `End`; those hit `unimplemented!` and panic. -/
def TokenReader.set (r : TokenReader) (ty : TType) (buf : List Nat) :
    Except DecErr TokenReader :=
  match ty with
  | .tType => .ok { r with type_reader := { r.type_reader with buf := buf } }
  | .tString => .ok { r with string_reader := { r.string_reader with buf := buf } }
  | .tChar => .ok { r with char_reader := { r.char_reader with buf := buf } }
  | .tDigits0 => .ok { r with digits0_reader := { r.digits0_reader with buf := buf } }
  | .tDup => .ok { r with dup_reader := { r.dup_reader with buf := buf } }
  | .tDiff => .ok { r with diff_reader := { r.diff_reader with buf := buf } }
  | .tDZLen => .ok { r with dz_len_reader := { r.dz_len_reader with buf := buf } }
  | .tDigits => .ok { r with digits_reader := { r.digits_reader with buf := buf } }
  | .tDelta => .ok { r with delta_reader := { r.delta_reader with buf := buf } }
  | .tDelta0 => .ok { r with delta0_reader := { r.delta0_reader with buf := buf } }
  | _ => .error .panicked

/-- `TokenReader::read_type`: one byte from the type-tag stream, decoded into
a token kind (`InvalidData` on an unrecognized value). -/
def TokenReader.read_type (r : TokenReader) : Except DecErr (TType × TokenReader) :=
  match r.type_reader.readU8 with
  | .error e => .error e
  | .ok (n, c) =>
    match TType.tryFrom n with
    | .error e => .error e
    | .ok ty => .ok (ty, { r with type_reader := c })

/-- `TokenReader::read_distance`: asserts the tag is `Dup` or `Diff` (any
other tag fails the `assert!`, a panic), then reads a little-endian `u32`
from `get_mut(ty)`.  The source's `get_mut` match has no `Dup` arm, so the
`Dup` case hits `unimplemented!` and panics. -/
def TokenReader.read_distance (r : TokenReader) (ty : TType) :
    Except DecErr (Nat × TokenReader) :=
  if ty = .tDup ∨ ty = .tDiff then
    match ty with
    | .tDiff =>
      match r.diff_reader.readU32le with
      | .error e => .error e
      | .ok (n, c) => .ok (n, { r with diff_reader := c })
    | _ => .error .panicked
  else .error .panicked

/-- `TokenReader::read_token`: reads one type tag, then the token payload for
that tag.  `Match` reuses the previous token (`prev_token.cloned()`), which is
`none` when there is no previous token; `End` yields no token; `Delta` and
`Delta0` read a one-byte increment and require the previous token to be
`Digits` resp. `PaddedDigits` (`InvalidData` otherwise; the addition is `u32`
arithmetic, hence the explicit `% 2 ^ 32`); all remaining tags yield `Nop`. -/
def TokenReader.read_token (r : TokenReader) (prev : Option Token) :
    Except DecErr (Option Token × TokenReader) :=
  match r.read_type with
  | .error e => .error e
  | .ok (ty, r) =>
    match ty with
    | .tChar =>
      match r.char_reader.readU8 with
      | .error e => .error e
      | .ok (c, cur) => .ok (some (.char c), { r with char_reader := cur })
    | .tString =>
      let (s, cur) := r.string_reader.readUntilNulPopped
      if validUtf8 s then .ok (some (.string s), { r with string_reader := cur })
      else .error .invalidData
    | .tDigits =>
      match r.digits_reader.readU32le with
      | .error e => .error e
      | .ok (d, cur) => .ok (some (.digits d), { r with digits_reader := cur })
    | .tDigits0 =>
      match r.digits0_reader.readU32le with
      | .error e => .error e
      | .ok (d, cur) =>
        match r.dz_len_reader.readU8 with
        | .error e => .error e
        | .ok (l, cur2) =>
          .ok (some (.paddedDigits d l), { r with digits0_reader := cur, dz_len_reader := cur2 })
    | .tDelta =>
      match r.delta_reader.readU8 with
      | .error e => .error e
      | .ok (d, cur) =>
        match prev with
        | some (.digits n) => .ok (some (.digits ((n + d) % 2 ^ 32)), { r with delta_reader := cur })
        | _ => .error .invalidData
    | .tDelta0 =>
      match r.delta0_reader.readU8 with
      | .error e => .error e
      | .ok (d, cur) =>
        match prev with
        | some (.paddedDigits n width) =>
          .ok (some (.paddedDigits ((n + d) % 2 ^ 32) width), { r with delta0_reader := cur })
        | _ => .error .invalidData
    | .tMatch => .ok (prev, r)
    | .tEnd => .ok (none, r)
    | _ => .ok (some .nop, r)

/-- `read_u8` on the outer byte source. -/
def readByte : List Nat → Except DecErr (Nat × List Nat)
  | [] => .error .eof
  | b :: rest => .ok (b, rest)

/-- `read_u32::<LittleEndian>` on the outer byte source. -/
def readU32leList (src : List Nat) : Except DecErr (Nat × List Nat) :=
  match src with
  | b0 :: b1 :: b2 :: b3 :: rest =>
    .ok (b0 + 256 * b1 + 65536 * b2 + 16777216 * b3, rest)
  | _ => .error .eof

/-- `read_exact` into a buffer of length `n`: `UnexpectedEof` when fewer than
`n` bytes remain. -/
def readExact (n : Nat) (src : List Nat) : Except DecErr (List Nat × List Nat) :=
  if n ≤ src.length then .ok (src.take n, src.drop n) else .error .eof

/-- Modelled from the spec: `read_uint7` (in `noodles-cram::reader::num`, not
part of the excerpted source) reads a 7-bit-group, continuation-bit encoded
unsigned integer: groups are accumulated most significant first while the top
bit of each byte is set. -/
def read_uint7Aux : List Nat → Nat → Except DecErr (Nat × List Nat)
  | [], _ => .error .eof
  | b :: rest, acc =>
    if (b / 128) % 2 = 1 then read_uint7Aux rest (acc * 128 + b % 128)
    else .ok (acc * 128 + b % 128, rest)

/-- Modelled from the spec: see `read_uint7Aux`. -/
def read_uint7 (src : List Nat) : Except DecErr (Nat × List Nat) :=
  read_uint7Aux src 0

/-- `b[t as usize].set(ty, buf)`: `t` is an `i64`-style counter starting at
`-1`; a negative `t` cast to `usize` is a huge index, so the indexing panics,
as does an index at or past the end of `b`. -/
def setAt (b : List TokenReader) (t : Int) (ty : TType) (buf : List Nat) :
    Except DecErr (List TokenReader) :=
  if t < 0 then .error .panicked
  else
    match b.get? t.toNat with
    | none => .error .panicked
    | some r =>
      match r.set ty buf with
      | .error e => .error e
      | .ok r2 => .ok (b.set t.toNat r2)

/-- The `tok_new` handling at the start of a sub-block (`if tok_new { ... }`
in `decode_token_byte_streams`): when header bit `0x80` is set, the column
counter is incremented and a fresh default column is pushed; when additionally
the tag is not the generic type tag, a buffer of `n_names` "repeat previous"
(`Match`) markers whose position 0 is overwritten with the actual tag byte is
written — by `b[t as usize].set(ty, buf)` — into the new column's stream for
kind `ty` (note: not its type-tag stream).  With `n_names = 0` the write
`buf[0] = ...` indexes an empty vector, a panic. -/
def demuxNewColumn (nNames : Nat) (b : List TokenReader) (t : Int) (ttype : Nat) (ty : TType) :
    Except DecErr (List TokenReader × Int) :=
  if (ttype / 128) % 2 = 1 then
    if ty ≠ .tType then
      match List.replicate nNames (TType.toByte .tMatch) with
      | [] => .error .panicked
      | x :: xs =>
        match setAt (b ++ [TokenReader.default]) (t + 1) ty ((x :: xs).set 0 (TType.toByte ty)) with
        | .error e => .error e
        | .ok b3 => .ok (b3, t + 1)
    else .ok (b ++ [TokenReader.default], t + 1)
  else .ok (b, t)

/-- One pass of the sub-block loop of `decode_token_byte_streams`, with
explicit fuel (one unit per sub-block; the caller supplies the source length,
which bounds the number of sub-blocks since each consumes at least its header
byte).  `be` is the selected entropy back-end.  The state is the column list
`b` and the current column counter `t` (starting at `-1`).  Exhaustion of the
outer source before a header byte is the successful termination condition. -/
def demuxLoop (be : List Nat → Except DecErr (List Nat)) (nNames : Nat) :
    Nat → List TokenReader → Int → List Nat → Except DecErr (List TokenReader)
  | _, b, _, [] => .ok b
  | 0, _, _, _ :: _ => .error .outOfFuel
  | fuel + 1, b, t, ttype :: src =>
    match TType.tryFrom ttype with
    | .error e => .error e
    | .ok ty =>
      match demuxNewColumn nNames b t ttype ty with
      | .error e => .error e
      | .ok (b, t) =>
        if (ttype / 64) % 2 = 1 then
          match readByte src with
          | .error e => .error e
          | .ok (dup_pos, src) =>
            match readByte src with
            | .error e => .error e
            | .ok (dtb, src) =>
              match TType.tryFrom dtb with
              | .error e => .error e
              | .ok dup_type =>
                match b.get? dup_pos with
                | none => .error .panicked
                | some srcCol =>
                  match srcCol.get dup_type with
                  | .error e => .error e
                  | .ok cur =>
                    match setAt b t ty cur.buf with
                    | .error e => .error e
                    | .ok b2 => demuxLoop be nNames fuel b2 t src
        else
          match read_uint7 src with
          | .error e => .error e
          | .ok (clen, src) =>
            match readExact clen src with
            | .error e => .error e
            | .ok (data, src) =>
              match be data with
              | .error e => .error e
              | .ok buf =>
                match setAt b t ty buf with
                | .error e => .error e
                | .ok b2 => demuxLoop be nNames fuel b2 t src

/-- `decode_token_byte_streams`: runs the sub-block loop from the empty column
list with counter `-1`.  The back-end is selected per payload from the block's
`use_arith` flag (`aac::decode` when the flag byte was `1`, `rans_nx16::decode`
otherwise), so one flag governs every fresh column of the block. -/
def decode_token_byte_streams (bkRans bkAac : List Nat → Except DecErr (List Nat))
    (use_arith : Bool) (nNames : Nat) (src : List Nat) :
    Except DecErr (List TokenReader) :=
  demuxLoop (fun data => if use_arith then bkAac data else bkRans data)
    nNames src.length [] (-1) src

/-- The token walk of `decode_single_name` (its `loop` over columns
`1, 2, 3, ...`), with explicit fuel (one unit per column step; the caller
supplies the number of columns, which bounds the walk because the out-of-range
accesses `tokens[m][t]` and `b[t]` panic).  Each step reads the reference
token `tokens[m][t]`, reads one token from column `t` with it as context,
appends the token's rendering to `names[n]` (except for `Nop`, which touches
only the token list), records the token in `tokens[n][t]` and advances `t` by
exactly one; an absent token (`End`, or `Match` with no reference token) stops
the walk. -/
def nameLoop (fuel : Nat) (b : List TokenReader) (names : List (List Nat))
    (tokens : List (List (Option Token))) (n m t : Nat) :
    Except DecErr (List TokenReader × List (List Nat) × List (List (Option Token))) :=
  match tokens.get? m with
  | none => .error .panicked
  | some rowM =>
    match rowM.get? t with
    | none => .error .panicked
    | some prev =>
      match b.get? t with
      | none => .error .panicked
      | some rt =>
        match rt.read_token prev with
        | .error e => .error e
        | .ok (none, rt2) => .ok (b.set t rt2, names, tokens)
        | .ok (some tok, rt2) =>
          match (match tok with
            | .nop => Except.ok names
            | _ =>
              match names.get? n with
              | none => Except.error DecErr.panicked
              | some s => Except.ok (names.set n (s ++ tok.render))) with
          | .error e => .error e
          | .ok names2 =>
            match tokens.get? n with
            | none => .error .panicked
            | some rowN =>
              if t < rowN.length then
                match fuel with
                | 0 => .error .outOfFuel
                | fuel + 1 =>
                  nameLoop fuel (b.set t rt2) names2 (tokens.set n (rowN.set t (some tok))) n m
                    (t + 1)
              else .error .panicked

/-- `decode_single_name`: reads a type tag and a distance from column 0,
resolves the reference ordinal `m = n - dist` (`n - dist` underflows when
`dist > n`: a panic in a debug build, and in a release build the wrapped value
is an out-of-bounds index, so the access panics), then either copies name and
token list from `m` (`Dup`) or walks columns `1, 2, 3, ...` (`Diff`).
Returns the updated state together with `names[n].clone()`. -/
def decode_single_name (b : List TokenReader) (names : List (List Nat))
    (tokens : List (List (Option Token))) (n : Nat) :
    Except DecErr
      (List TokenReader × List (List Nat) × List (List (Option Token)) × List Nat) :=
  match b.get? 0 with
  | none => .error .panicked
  | some r0 =>
    match r0.read_type with
    | .error e => .error e
    | .ok (ty, r0a) =>
      match r0a.read_distance ty with
      | .error e => .error e
      | .ok (dist, r0b) =>
        if n < dist then .error .panicked
        else if ty = .tDup then
          match names.get? (n - dist) with
          | none => .error .panicked
          | some nm =>
            if n < names.length then
              match tokens.get? (n - dist) with
              | none => .error .panicked
              | some tm =>
                if n < tokens.length then
                  .ok (b.set 0 r0b, names.set n nm, tokens.set n tm, nm)
                else .error .panicked
            else .error .panicked
        else
          match nameLoop (b.set 0 r0b).length (b.set 0 r0b) names tokens n (n - dist) 1 with
          | .error e => .error e
          | .ok (b2, names2, tokens2) =>
            match names2.get? n with
            | none => .error .panicked
            | some nm => .ok (b2, names2, tokens2, nm)

/-- The per-name loop of `decode`: decodes names for ordinals `i, i+1, ...`
(`count` many), appending each returned name followed by one NUL byte to the
output buffer. -/
def decodeNamesLoop (b : List TokenReader) (names : List (List Nat))
    (tokens : List (List (Option Token))) (i : Nat) (count : Nat) (dst : List Nat) :
    Except DecErr (List Nat) :=
  match count with
  | 0 => .ok dst
  | count + 1 =>
    match decode_single_name b names tokens i with
    | .error e => .error e
    | .ok (b2, names2, tokens2, nm) =>
      decodeNamesLoop b2 names2 tokens2 (i + 1) count (dst ++ nm ++ [0])

/-- The body of `decode` after the block header has been read: demultiplex the
sub-blocks into per-column byte streams, then reconstruct the `nNames` names
in ordinal order into one NUL-joined buffer.  `ulen` is the declared
uncompressed length, used by the source only as a capacity hint
(`Vec::with_capacity`). -/
def decodeBody (bkRans bkAac : List Nat → Except DecErr (List Nat))
    (use_arith : Bool) (nNames ulen : Nat) (src : List Nat) :
    Except DecErr (List Nat) :=
  match decode_token_byte_streams bkRans bkAac use_arith nNames src with
  | .error e => .error e
  | .ok b =>
    let _hint := ulen
    decodeNamesLoop b (List.replicate nNames [])
      (List.replicate nNames (List.replicate 128 (none : Option Token))) 0 nNames []

/-- `decode`: reads the block header — a little-endian `u32` uncompressed
length, a little-endian `u32` name count and one flag byte whose value `1`
selects the arithmetic-coder back-end (any other value selects the range
coder) — and then decodes the block body.  (`usize::try_from` on a `u32`
cannot fail on a 64-bit target, so the `InvalidData` branch of the header
reads is unreachable and not modelled.) -/
def decode (bkRans bkAac : List Nat → Except DecErr (List Nat)) (src : List Nat) :
    Except DecErr (List Nat) :=
  match readU32leList src with
  | .error e => .error e
  | .ok (ulen, s1) =>
    match readU32leList s1 with
    | .error e => .error e
    | .ok (nNames, s2) =>
      match readByte s2 with
      | .error e => .error e
      | .ok (flag, s3) =>
        decodeBody bkRans bkAac (flag == 1) nNames ulen s3

/-- The compressed 3-name block of the regression test using the range-coder back-end
(`tests::test_decode` in decode.rs). -/
def ransBlockData : List Nat := [
  88, 0, 0, 0, 3, 0, 0, 0, 0, 128, 21, 0, 3, 6, 0, 4, 0, 128, 0, 0, 0, 128, 0, 0, 0, 128, 0, 0,
  0, 128, 0, 0, 6, 24, 0, 12, 0, 1, 0, 0, 14, 2, 0, 34, 37, 0, 0, 188, 0, 0, 0, 188, 0, 0, 0,
  188, 0, 0, 128, 23, 0, 3, 1, 10, 0, 1, 3, 0, 0, 2, 0, 0, 172, 0, 0, 0, 172, 0, 0, 0, 128, 0, 0,
  1, 27, 0, 4, 0, 49, 55, 73, 0, 1, 1, 1, 1, 0, 12, 2, 0, 0, 4, 2, 0, 0, 8, 2, 0, 0, 0, 2, 0,
  128, 23, 0, 3, 2, 10, 0, 1, 3, 0, 0, 2, 0, 0, 172, 0, 0, 0, 172, 0, 0, 0, 128, 0, 0, 2, 21, 0,
  1, 95, 0, 1, 0, 128, 0, 0, 0, 128, 0, 0, 0, 128, 0, 0, 0, 128, 0, 0, 128, 23, 0, 3, 3, 10, 0,
  1, 3, 0, 0, 2, 0, 0, 172, 0, 0, 0, 172, 0, 0, 0, 128, 0, 0, 3, 25, 0, 4, 0, 34, 61, 0, 2, 1, 1,
  0, 12, 2, 0, 0, 8, 2, 0, 0, 0, 1, 0, 0, 0, 1, 0, 4, 21, 0, 1, 5, 0, 1, 0, 128, 0, 0, 0, 128, 0,
  0, 0, 128, 0, 0, 0, 128, 0, 0, 128, 23, 0, 3, 2, 10, 0, 1, 3, 0, 0, 2, 0, 0, 172, 0, 0, 0, 172,
  0, 0, 0, 128, 0, 0, 2, 21, 0, 1, 58, 0, 1, 0, 128, 0, 0, 0, 128, 0, 0, 0, 128, 0, 0, 0, 128, 0,
  0, 128, 23, 0, 3, 7, 10, 0, 1, 3, 0, 0, 2, 0, 0, 172, 0, 0, 0, 172, 0, 0, 0, 128, 0, 0, 7, 23,
  0, 4, 0, 2, 0, 3, 1, 0, 12, 2, 0, 0, 168, 0, 0, 0, 168, 0, 0, 0, 168, 0, 0, 128, 23, 0, 3, 2,
  10, 0, 1, 3, 0, 0, 2, 0, 0, 172, 0, 0, 0, 172, 0, 0, 0, 128, 0, 0, 2, 21, 0, 1, 58, 0, 1, 0,
  128, 0, 0, 0, 128, 0, 0, 0, 128, 0, 0, 0, 128, 0, 0, 128, 23, 0, 3, 7, 10, 0, 3, 1, 0, 168, 0,
  0, 0, 12, 2, 0, 0, 168, 0, 0, 0, 128, 0, 0, 7, 26, 0, 8, 0, 123, 124, 0, 0, 6, 1, 1, 0, 124,
  32, 0, 0, 224, 0, 0, 0, 224, 0, 0, 0, 224, 0, 0, 128, 23, 0, 3, 2, 10, 0, 1, 3, 0, 0, 2, 0, 0,
  172, 0, 0, 0, 172, 0, 0, 0, 128, 0, 0, 2, 21, 0, 1, 58, 0, 1, 0, 128, 0, 0, 0, 128, 0, 0, 0,
  128, 0, 0, 0, 128, 0, 0, 128, 21, 0, 3, 7, 0, 4, 0, 128, 0, 0, 0, 128, 0, 0, 0, 128, 0, 0, 0,
  128, 0, 0, 7, 34, 0, 12, 0, 6, 45, 100, 101, 0, 178, 240, 0, 10, 1, 1, 1, 1, 1, 1, 0, 205, 11,
  8, 0, 175, 14, 8, 0, 0, 2, 0, 0, 0, 2, 0, 128, 23, 0, 3, 2, 10, 0, 1, 3, 0, 0, 2, 0, 0, 172, 0,
  0, 0, 172, 0, 0, 0, 128, 0, 0, 2, 21, 0, 1, 58, 0, 1, 0, 128, 0, 0, 0, 128, 0, 0, 0, 128, 0, 0,
  0, 128, 0, 0, 128, 23, 0, 3, 3, 7, 0, 3, 1, 0, 168, 0, 0, 0, 168, 0, 0, 0, 12, 2, 0, 0, 128, 0,
  0, 3, 29, 0, 8, 0, 6, 33, 163, 227, 0, 4, 1, 1, 1, 1, 0, 110, 32, 0, 0, 88, 32, 0, 0, 0, 2, 0,
  0, 0, 2, 0, 4, 21, 0, 2, 5, 0, 2, 0, 128, 0, 0, 0, 128, 0, 0, 0, 128, 0, 0, 0, 128, 0, 0, 7,
  25, 0, 4, 0, 33, 63, 0, 2, 1, 1, 0, 8, 2, 0, 0, 12, 2, 0, 0, 0, 1, 0, 0, 0, 1, 0, 128, 23, 0,
  3, 2, 10, 0, 1, 3, 0, 0, 2, 0, 0, 172, 0, 0, 0, 172, 0, 0, 0, 128, 0, 0, 2, 21, 0, 1, 35, 0, 1,
  0, 128, 0, 0, 0, 128, 0, 0, 0, 128, 0, 0, 0, 128, 0, 0, 128, 23, 0, 3, 7, 10, 0, 1, 3, 0, 0, 2,
  0, 0, 172, 0, 0, 0, 172, 0, 0, 0, 128, 0, 0, 7, 23, 0, 4, 0, 9, 0, 3, 1, 0, 12, 2, 0, 0, 168,
  0, 0, 0, 168, 0, 0, 0, 168, 0, 0, 128, 21, 0, 3, 12, 0, 4, 0, 128, 0, 0, 0, 128, 0, 0, 0, 128,
  0, 0, 0, 128, 0, 0]

/-- The compressed 3-name block of the regression test using the arithmetic-coder back-end
(`tests::test_decode_with_arithmetic_coder` in decode.rs). -/
def aacBlockData : List Nat := [
  88, 0, 0, 0, 3, 0, 0, 0, 1, 128, 8, 0, 3, 7, 0, 230, 38, 187, 111, 6, 9, 0, 12, 2, 0, 114, 22,
  179, 34, 6, 128, 9, 0, 3, 11, 0, 46, 47, 68, 86, 89, 1, 11, 0, 4, 74, 0, 254, 115, 35, 204,
  189, 0, 0, 128, 9, 0, 3, 11, 0, 69, 117, 21, 202, 89, 2, 8, 0, 1, 96, 0, 253, 85, 85, 22, 128,
  9, 0, 3, 11, 0, 92, 186, 231, 62, 89, 3, 10, 0, 4, 62, 0, 253, 171, 185, 144, 0, 0, 4, 8, 0, 1,
  6, 0, 213, 85, 85, 82, 128, 9, 0, 3, 11, 0, 69, 117, 21, 202, 89, 2, 8, 0, 1, 59, 0, 251, 169,
  56, 54, 128, 9, 0, 3, 11, 0, 185, 210, 45, 14, 89, 7, 8, 0, 4, 3, 0, 170, 170, 170, 170, 128,
  9, 0, 3, 11, 0, 69, 117, 21, 202, 89, 2, 8, 0, 1, 59, 0, 251, 169, 56, 54, 128, 9, 0, 3, 11, 0,
  185, 112, 172, 211, 134, 7, 11, 64, 8, 125, 0, 251, 232, 30, 120, 62, 229, 38, 128, 9, 0, 3,
  11, 0, 69, 117, 21, 202, 89, 2, 8, 0, 1, 59, 0, 251, 169, 56, 54, 128, 8, 0, 3, 8, 0, 234, 213,
  85, 71, 7, 17, 0, 12, 241, 0, 108, 88, 43, 108, 78, 22, 219, 143, 75, 6, 150, 0, 0, 128, 9, 0,
  3, 11, 0, 69, 117, 21, 202, 89, 2, 8, 0, 1, 59, 0, 251, 169, 56, 54, 128, 9, 0, 3, 8, 0, 120,
  196, 68, 23, 0, 3, 14, 0, 8, 228, 0, 254, 231, 160, 116, 59, 120, 121, 72, 0, 0, 4, 8, 0, 2, 6,
  0, 221, 23, 69, 206, 7, 10, 0, 4, 64, 0, 135, 243, 50, 211, 0, 0, 128, 9, 0, 3, 11, 0, 69, 117,
  21, 202, 89, 2, 8, 0, 1, 36, 0, 248, 227, 142, 53, 128, 9, 0, 3, 11, 0, 185, 210, 45, 14, 89,
  7, 9, 0, 4, 10, 0, 230, 102, 102, 97, 0, 128, 8, 0, 3, 13, 0, 246, 87, 172, 14]

/-- Modelled from the spec: the two entropy back-ends (`rans_nx16::decode`, `aac::decode`)
are external collaborators that are not part of the excerpted source; the spec fixes only their
boundary, a pure function from a compressed byte payload (at order 0) to the decompressed byte
stream.  This table records that function on every sub-block payload of the two reference
fixtures: each entry pairs a compressed payload with its decompressed column stream.  Both
back-ends decompress corresponding payloads to identical streams. -/
def fixturePayloadTable : List (List Nat × List Nat) := [
  ([0, 3, 6, 0, 4, 0, 128, 0, 0, 0, 128, 0, 0, 0, 128, 0, 0, 0, 128, 0, 0],
   [6, 6, 6]),
  ([0, 3, 7, 0, 230, 38, 187, 111],
   [6, 6, 6]),
  ([0, 12, 0, 1, 0, 0, 14, 2, 0, 34, 37, 0, 0, 188, 0, 0, 0, 188, 0, 0, 0, 188, 0, 0],
   [0, 0, 0, 0, 1, 0, 0, 0, 1, 0, 0, 0]),
  ([0, 12, 2, 0, 114, 22, 179, 34, 6],
   [0, 0, 0, 0, 1, 0, 0, 0, 1, 0, 0, 0]),
  ([0, 3, 1, 10, 0, 1, 3, 0, 0, 2, 0, 0, 172, 0, 0, 0, 172, 0, 0, 0, 128, 0, 0],
   [1, 10, 10]),
  ([0, 3, 11, 0, 46, 47, 68, 86, 89],
   [1, 10, 10]),
  ([0, 4, 0, 49, 55, 73, 0, 1, 1, 1, 1, 0, 12, 2, 0, 0, 4, 2, 0, 0, 8, 2, 0, 0, 0, 2, 0],
   [73, 49, 55, 0]),
  ([0, 4, 74, 0, 254, 115, 35, 204, 189, 0, 0],
   [73, 49, 55, 0]),
  ([0, 3, 2, 10, 0, 1, 3, 0, 0, 2, 0, 0, 172, 0, 0, 0, 172, 0, 0, 0, 128, 0, 0],
   [2, 10, 10]),
  ([0, 3, 11, 0, 69, 117, 21, 202, 89],
   [2, 10, 10]),
  ([0, 1, 95, 0, 1, 0, 128, 0, 0, 0, 128, 0, 0, 0, 128, 0, 0, 0, 128, 0, 0],
   [95]),
  ([0, 1, 96, 0, 253, 85, 85, 22],
   [95]),
  ([0, 3, 3, 10, 0, 1, 3, 0, 0, 2, 0, 0, 172, 0, 0, 0, 172, 0, 0, 0, 128, 0, 0],
   [3, 10, 10]),
  ([0, 3, 11, 0, 92, 186, 231, 62, 89],
   [3, 10, 10]),
  ([0, 4, 0, 34, 61, 0, 2, 1, 1, 0, 12, 2, 0, 0, 8, 2, 0, 0, 0, 1, 0, 0, 0, 1, 0],
   [61, 34, 0, 0]),
  ([0, 4, 62, 0, 253, 171, 185, 144, 0, 0],
   [61, 34, 0, 0]),
  ([0, 1, 5, 0, 1, 0, 128, 0, 0, 0, 128, 0, 0, 0, 128, 0, 0, 0, 128, 0, 0],
   [5]),
  ([0, 1, 6, 0, 213, 85, 85, 82],
   [5]),
  ([0, 1, 58, 0, 1, 0, 128, 0, 0, 0, 128, 0, 0, 0, 128, 0, 0, 0, 128, 0, 0],
   [58]),
  ([0, 1, 59, 0, 251, 169, 56, 54],
   [58]),
  ([0, 3, 7, 10, 0, 1, 3, 0, 0, 2, 0, 0, 172, 0, 0, 0, 172, 0, 0, 0, 128, 0, 0],
   [7, 10, 10]),
  ([0, 3, 11, 0, 185, 210, 45, 14, 89],
   [7, 10, 10]),
  ([0, 4, 0, 2, 0, 3, 1, 0, 12, 2, 0, 0, 168, 0, 0, 0, 168, 0, 0, 0, 168, 0, 0],
   [2, 0, 0, 0]),
  ([0, 4, 3, 0, 170, 170, 170, 170],
   [2, 0, 0, 0]),
  ([0, 3, 7, 10, 0, 3, 1, 0, 168, 0, 0, 0, 12, 2, 0, 0, 168, 0, 0, 0, 128, 0, 0],
   [7, 10, 7]),
  ([0, 3, 11, 0, 185, 112, 172, 211, 134],
   [7, 10, 7]),
  ([0, 8, 0, 123, 124, 0, 0, 6, 1, 1, 0, 124, 32, 0, 0, 224, 0, 0, 0, 224, 0, 0, 0, 224, 0, 0],
   [123, 0, 0, 0, 124, 0, 0, 0]),
  ([64, 8, 125, 0, 251, 232, 30, 120, 62, 229, 38],
   [123, 0, 0, 0, 124, 0, 0, 0]),
  ([0, 3, 7, 0, 4, 0, 128, 0, 0, 0, 128, 0, 0, 0, 128, 0, 0, 0, 128, 0, 0],
   [7, 7, 7]),
  ([0, 3, 8, 0, 234, 213, 85, 71],
   [7, 7, 7]),
  ([0, 12, 0, 6, 45, 100, 101, 0, 178, 240, 0, 10, 1, 1, 1, 1, 1, 1, 0, 205, 11, 8, 0, 175, 14, 8, 0, 0, 2, 0, 0, 0, 2, 0],
   [101, 240, 0, 0, 100, 6, 0, 0, 45, 178, 0, 0]),
  ([0, 12, 241, 0, 108, 88, 43, 108, 78, 22, 219, 143, 75, 6, 150, 0, 0],
   [101, 240, 0, 0, 100, 6, 0, 0, 45, 178, 0, 0]),
  ([0, 3, 3, 7, 0, 3, 1, 0, 168, 0, 0, 0, 168, 0, 0, 0, 12, 2, 0, 0, 128, 0, 0],
   [3, 3, 7]),
  ([0, 3, 8, 0, 120, 196, 68, 23, 0],
   [3, 3, 7]),
  ([0, 8, 0, 6, 33, 163, 227, 0, 4, 1, 1, 1, 1, 0, 110, 32, 0, 0, 88, 32, 0, 0, 0, 2, 0, 0, 0, 2, 0],
   [227, 6, 0, 0, 163, 33, 0, 0]),
  ([0, 8, 228, 0, 254, 231, 160, 116, 59, 120, 121, 72, 0, 0],
   [227, 6, 0, 0, 163, 33, 0, 0]),
  ([0, 2, 5, 0, 2, 0, 128, 0, 0, 0, 128, 0, 0, 0, 128, 0, 0, 0, 128, 0, 0],
   [5, 5]),
  ([0, 2, 6, 0, 221, 23, 69, 206],
   [5, 5]),
  ([0, 4, 0, 33, 63, 0, 2, 1, 1, 0, 8, 2, 0, 0, 12, 2, 0, 0, 0, 1, 0, 0, 0, 1, 0],
   [33, 63, 0, 0]),
  ([0, 4, 64, 0, 135, 243, 50, 211, 0, 0],
   [33, 63, 0, 0]),
  ([0, 1, 35, 0, 1, 0, 128, 0, 0, 0, 128, 0, 0, 0, 128, 0, 0, 0, 128, 0, 0],
   [35]),
  ([0, 1, 36, 0, 248, 227, 142, 53],
   [35]),
  ([0, 4, 0, 9, 0, 3, 1, 0, 12, 2, 0, 0, 168, 0, 0, 0, 168, 0, 0, 0, 168, 0, 0],
   [9, 0, 0, 0]),
  ([0, 4, 10, 0, 230, 102, 102, 97, 0],
   [9, 0, 0, 0]),
  ([0, 3, 12, 0, 4, 0, 128, 0, 0, 0, 128, 0, 0, 0, 128, 0, 0, 0, 128, 0, 0],
   [12, 12, 12]),
  ([0, 3, 13, 0, 246, 87, 172, 14],
   [12, 12, 12])]

/-- The expected decoded output: the three reference names, each followed by one NUL byte. -/
def expectedNameBytes : List Nat := [
  73, 49, 55, 95, 48, 56, 55, 54, 53, 58, 50, 58, 49, 50, 51, 58, 54, 49, 53, 52, 49, 58, 48, 49,
  55, 54, 51, 35, 57, 0, 73, 49, 55, 95, 48, 56, 55, 54, 53, 58, 50, 58, 49, 50, 51, 58, 49, 54,
  51, 54, 58, 48, 56, 54, 49, 49, 35, 57, 0, 73, 49, 55, 95, 48, 56, 55, 54, 53, 58, 50, 58, 49,
  50, 52, 58, 52, 53, 54, 49, 51, 58, 49, 54, 49, 54, 49, 35, 57, 0]


/-- Association-list lookup used by the modelled fixture back-end. -/
def lookupStream : List (List Nat × List Nat) → List Nat → Except DecErr (List Nat)
  | [], _ => .error .invalidData
  | (p, s) :: rest, q => if p = q then .ok s else lookupStream rest q

/-- Modelled from the spec: an entropy back-end (`bytes at order 0 -> bytes`)
restricted to the reference fixtures, tabulated by `fixturePayloadTable`; a
payload outside the table is rejected, modelling a back-end failure. -/
def fixtureBackend (p : List Nat) : Except DecErr (List Nat) :=
  lookupStream fixturePayloadTable p

/-- Modelled from the spec: an entropy back-end whose decompressed output
equals its payload, used to drive the demultiplexer with explicit streams in
concrete scenarios. -/
def idBackend : List Nat → Except DecErr (List Nat) := fun p => .ok p

/-- The column store produced by demultiplexing either reference fixture: fifteen
columns, each holding the decompressed byte streams of its sub-blocks (identical for
both back-ends). -/
def fixtureColumns : List TokenReader := [
  ⟨⟨[6, 6, 6], 0⟩, ⟨[], 0⟩, ⟨[], 0⟩, ⟨[], 0⟩, ⟨[], 0⟩, ⟨[], 0⟩, ⟨[0, 0, 0, 0, 1, 0, 0, 0, 1, 0, 0, 0], 0⟩, ⟨[], 0⟩, ⟨[], 0⟩, ⟨[], 0⟩⟩,
  ⟨⟨[1, 10, 10], 0⟩, ⟨[73, 49, 55, 0], 0⟩, ⟨[], 0⟩, ⟨[], 0⟩, ⟨[], 0⟩, ⟨[], 0⟩, ⟨[], 0⟩, ⟨[], 0⟩, ⟨[], 0⟩, ⟨[], 0⟩⟩,
  ⟨⟨[2, 10, 10], 0⟩, ⟨[], 0⟩, ⟨[95], 0⟩, ⟨[], 0⟩, ⟨[], 0⟩, ⟨[], 0⟩, ⟨[], 0⟩, ⟨[], 0⟩, ⟨[], 0⟩, ⟨[], 0⟩⟩,
  ⟨⟨[3, 10, 10], 0⟩, ⟨[], 0⟩, ⟨[], 0⟩, ⟨[61, 34, 0, 0], 0⟩, ⟨[5], 0⟩, ⟨[], 0⟩, ⟨[], 0⟩, ⟨[], 0⟩, ⟨[], 0⟩, ⟨[], 0⟩⟩,
  ⟨⟨[2, 10, 10], 0⟩, ⟨[], 0⟩, ⟨[58], 0⟩, ⟨[], 0⟩, ⟨[], 0⟩, ⟨[], 0⟩, ⟨[], 0⟩, ⟨[], 0⟩, ⟨[], 0⟩, ⟨[], 0⟩⟩,
  ⟨⟨[7, 10, 10], 0⟩, ⟨[], 0⟩, ⟨[], 0⟩, ⟨[], 0⟩, ⟨[], 0⟩, ⟨[], 0⟩, ⟨[], 0⟩, ⟨[2, 0, 0, 0], 0⟩, ⟨[], 0⟩, ⟨[], 0⟩⟩,
  ⟨⟨[2, 10, 10], 0⟩, ⟨[], 0⟩, ⟨[58], 0⟩, ⟨[], 0⟩, ⟨[], 0⟩, ⟨[], 0⟩, ⟨[], 0⟩, ⟨[], 0⟩, ⟨[], 0⟩, ⟨[], 0⟩⟩,
  ⟨⟨[7, 10, 7], 0⟩, ⟨[], 0⟩, ⟨[], 0⟩, ⟨[], 0⟩, ⟨[], 0⟩, ⟨[], 0⟩, ⟨[], 0⟩, ⟨[123, 0, 0, 0, 124, 0, 0, 0], 0⟩, ⟨[], 0⟩, ⟨[], 0⟩⟩,
  ⟨⟨[2, 10, 10], 0⟩, ⟨[], 0⟩, ⟨[58], 0⟩, ⟨[], 0⟩, ⟨[], 0⟩, ⟨[], 0⟩, ⟨[], 0⟩, ⟨[], 0⟩, ⟨[], 0⟩, ⟨[], 0⟩⟩,
  ⟨⟨[7, 7, 7], 0⟩, ⟨[], 0⟩, ⟨[], 0⟩, ⟨[], 0⟩, ⟨[], 0⟩, ⟨[], 0⟩, ⟨[], 0⟩, ⟨[101, 240, 0, 0, 100, 6, 0, 0, 45, 178, 0, 0], 0⟩, ⟨[], 0⟩, ⟨[], 0⟩⟩,
  ⟨⟨[2, 10, 10], 0⟩, ⟨[], 0⟩, ⟨[58], 0⟩, ⟨[], 0⟩, ⟨[], 0⟩, ⟨[], 0⟩, ⟨[], 0⟩, ⟨[], 0⟩, ⟨[], 0⟩, ⟨[], 0⟩⟩,
  ⟨⟨[3, 3, 7], 0⟩, ⟨[], 0⟩, ⟨[], 0⟩, ⟨[227, 6, 0, 0, 163, 33, 0, 0], 0⟩, ⟨[5, 5], 0⟩, ⟨[], 0⟩, ⟨[], 0⟩, ⟨[33, 63, 0, 0], 0⟩, ⟨[], 0⟩, ⟨[], 0⟩⟩,
  ⟨⟨[2, 10, 10], 0⟩, ⟨[], 0⟩, ⟨[35], 0⟩, ⟨[], 0⟩, ⟨[], 0⟩, ⟨[], 0⟩, ⟨[], 0⟩, ⟨[], 0⟩, ⟨[], 0⟩, ⟨[], 0⟩⟩,
  ⟨⟨[7, 10, 10], 0⟩, ⟨[], 0⟩, ⟨[], 0⟩, ⟨[], 0⟩, ⟨[], 0⟩, ⟨[], 0⟩, ⟨[], 0⟩, ⟨[9, 0, 0, 0], 0⟩, ⟨[], 0⟩, ⟨[], 0⟩⟩,
  ⟨⟨[12, 12, 12], 0⟩, ⟨[], 0⟩, ⟨[], 0⟩, ⟨[], 0⟩, ⟨[], 0⟩, ⟨[], 0⟩, ⟨[], 0⟩, ⟨[], 0⟩, ⟨[], 0⟩, ⟨[], 0⟩⟩]



/-- Decoder state after reconstructing name 0 of the reference fixture: column
cursor positions, the name table and the token table. -/
def fixtureCols1 : List TokenReader := [
  ⟨⟨[6, 6, 6], 1⟩, ⟨[], 0⟩, ⟨[], 0⟩, ⟨[], 0⟩, ⟨[], 0⟩, ⟨[], 0⟩, ⟨[0, 0, 0, 0, 1, 0, 0, 0, 1, 0, 0, 0], 4⟩, ⟨[], 0⟩, ⟨[], 0⟩, ⟨[], 0⟩⟩,
  ⟨⟨[1, 10, 10], 1⟩, ⟨[73, 49, 55, 0], 4⟩, ⟨[], 0⟩, ⟨[], 0⟩, ⟨[], 0⟩, ⟨[], 0⟩, ⟨[], 0⟩, ⟨[], 0⟩, ⟨[], 0⟩, ⟨[], 0⟩⟩,
  ⟨⟨[2, 10, 10], 1⟩, ⟨[], 0⟩, ⟨[95], 1⟩, ⟨[], 0⟩, ⟨[], 0⟩, ⟨[], 0⟩, ⟨[], 0⟩, ⟨[], 0⟩, ⟨[], 0⟩, ⟨[], 0⟩⟩,
  ⟨⟨[3, 10, 10], 1⟩, ⟨[], 0⟩, ⟨[], 0⟩, ⟨[61, 34, 0, 0], 4⟩, ⟨[5], 1⟩, ⟨[], 0⟩, ⟨[], 0⟩, ⟨[], 0⟩, ⟨[], 0⟩, ⟨[], 0⟩⟩,
  ⟨⟨[2, 10, 10], 1⟩, ⟨[], 0⟩, ⟨[58], 1⟩, ⟨[], 0⟩, ⟨[], 0⟩, ⟨[], 0⟩, ⟨[], 0⟩, ⟨[], 0⟩, ⟨[], 0⟩, ⟨[], 0⟩⟩,
  ⟨⟨[7, 10, 10], 1⟩, ⟨[], 0⟩, ⟨[], 0⟩, ⟨[], 0⟩, ⟨[], 0⟩, ⟨[], 0⟩, ⟨[], 0⟩, ⟨[2, 0, 0, 0], 4⟩, ⟨[], 0⟩, ⟨[], 0⟩⟩,
  ⟨⟨[2, 10, 10], 1⟩, ⟨[], 0⟩, ⟨[58], 1⟩, ⟨[], 0⟩, ⟨[], 0⟩, ⟨[], 0⟩, ⟨[], 0⟩, ⟨[], 0⟩, ⟨[], 0⟩, ⟨[], 0⟩⟩,
  ⟨⟨[7, 10, 7], 1⟩, ⟨[], 0⟩, ⟨[], 0⟩, ⟨[], 0⟩, ⟨[], 0⟩, ⟨[], 0⟩, ⟨[], 0⟩, ⟨[123, 0, 0, 0, 124, 0, 0, 0], 4⟩, ⟨[], 0⟩, ⟨[], 0⟩⟩,
  ⟨⟨[2, 10, 10], 1⟩, ⟨[], 0⟩, ⟨[58], 1⟩, ⟨[], 0⟩, ⟨[], 0⟩, ⟨[], 0⟩, ⟨[], 0⟩, ⟨[], 0⟩, ⟨[], 0⟩, ⟨[], 0⟩⟩,
  ⟨⟨[7, 7, 7], 1⟩, ⟨[], 0⟩, ⟨[], 0⟩, ⟨[], 0⟩, ⟨[], 0⟩, ⟨[], 0⟩, ⟨[], 0⟩, ⟨[101, 240, 0, 0, 100, 6, 0, 0, 45, 178, 0, 0], 4⟩, ⟨[], 0⟩, ⟨[], 0⟩⟩,
  ⟨⟨[2, 10, 10], 1⟩, ⟨[], 0⟩, ⟨[58], 1⟩, ⟨[], 0⟩, ⟨[], 0⟩, ⟨[], 0⟩, ⟨[], 0⟩, ⟨[], 0⟩, ⟨[], 0⟩, ⟨[], 0⟩⟩,
  ⟨⟨[3, 3, 7], 1⟩, ⟨[], 0⟩, ⟨[], 0⟩, ⟨[227, 6, 0, 0, 163, 33, 0, 0], 4⟩, ⟨[5, 5], 1⟩, ⟨[], 0⟩, ⟨[], 0⟩, ⟨[33, 63, 0, 0], 0⟩, ⟨[], 0⟩, ⟨[], 0⟩⟩,
  ⟨⟨[2, 10, 10], 1⟩, ⟨[], 0⟩, ⟨[35], 1⟩, ⟨[], 0⟩, ⟨[], 0⟩, ⟨[], 0⟩, ⟨[], 0⟩, ⟨[], 0⟩, ⟨[], 0⟩, ⟨[], 0⟩⟩,
  ⟨⟨[7, 10, 10], 1⟩, ⟨[], 0⟩, ⟨[], 0⟩, ⟨[], 0⟩, ⟨[], 0⟩, ⟨[], 0⟩, ⟨[], 0⟩, ⟨[9, 0, 0, 0], 4⟩, ⟨[], 0⟩, ⟨[], 0⟩⟩,
  ⟨⟨[12, 12, 12], 1⟩, ⟨[], 0⟩, ⟨[], 0⟩, ⟨[], 0⟩, ⟨[], 0⟩, ⟨[], 0⟩, ⟨[], 0⟩, ⟨[], 0⟩, ⟨[], 0⟩, ⟨[], 0⟩⟩]

def fixtureNames1 : List (List Nat) := [[73, 49, 55, 95, 48, 56, 55, 54, 53, 58, 50, 58, 49, 50, 51, 58, 54, 49, 53, 52, 49, 58, 48, 49, 55, 54, 51, 35, 57], [], []]

def fixtureTokens1 : List (List (Option Token)) := [
  ((((((((((((((List.replicate 128 (none : Option Token)).set 1 (some (.string [73, 49, 55]))).set 2 (some (.char 95))).set 3 (some (.paddedDigits 8765 5))).set 4 (some (.char 58))).set 5 (some (.digits 2))).set 6 (some (.char 58))).set 7 (some (.digits 123))).set 8 (some (.char 58))).set 9 (some (.digits 61541))).set 10 (some (.char 58))).set 11 (some (.paddedDigits 1763 5))).set 12 (some (.char 35))).set 13 (some (.digits 9))),
  (List.replicate 128 (none : Option Token)),
  (List.replicate 128 (none : Option Token))]

def fixtureName1Bytes : List Nat := [73, 49, 55, 95, 48, 56, 55, 54, 53, 58, 50, 58, 49, 50, 51, 58, 54, 49, 53, 52, 49, 58, 48, 49, 55, 54, 51, 35, 57]

/-- Decoder state after reconstructing name 1 of the reference fixture: column
cursor positions, the name table and the token table. -/
def fixtureCols2 : List TokenReader := [
  ⟨⟨[6, 6, 6], 2⟩, ⟨[], 0⟩, ⟨[], 0⟩, ⟨[], 0⟩, ⟨[], 0⟩, ⟨[], 0⟩, ⟨[0, 0, 0, 0, 1, 0, 0, 0, 1, 0, 0, 0], 8⟩, ⟨[], 0⟩, ⟨[], 0⟩, ⟨[], 0⟩⟩,
  ⟨⟨[1, 10, 10], 2⟩, ⟨[73, 49, 55, 0], 4⟩, ⟨[], 0⟩, ⟨[], 0⟩, ⟨[], 0⟩, ⟨[], 0⟩, ⟨[], 0⟩, ⟨[], 0⟩, ⟨[], 0⟩, ⟨[], 0⟩⟩,
  ⟨⟨[2, 10, 10], 2⟩, ⟨[], 0⟩, ⟨[95], 1⟩, ⟨[], 0⟩, ⟨[], 0⟩, ⟨[], 0⟩, ⟨[], 0⟩, ⟨[], 0⟩, ⟨[], 0⟩, ⟨[], 0⟩⟩,
  ⟨⟨[3, 10, 10], 2⟩, ⟨[], 0⟩, ⟨[], 0⟩, ⟨[61, 34, 0, 0], 4⟩, ⟨[5], 1⟩, ⟨[], 0⟩, ⟨[], 0⟩, ⟨[], 0⟩, ⟨[], 0⟩, ⟨[], 0⟩⟩,
  ⟨⟨[2, 10, 10], 2⟩, ⟨[], 0⟩, ⟨[58], 1⟩, ⟨[], 0⟩, ⟨[], 0⟩, ⟨[], 0⟩, ⟨[], 0⟩, ⟨[], 0⟩, ⟨[], 0⟩, ⟨[], 0⟩⟩,
  ⟨⟨[7, 10, 10], 2⟩, ⟨[], 0⟩, ⟨[], 0⟩, ⟨[], 0⟩, ⟨[], 0⟩, ⟨[], 0⟩, ⟨[], 0⟩, ⟨[2, 0, 0, 0], 4⟩, ⟨[], 0⟩, ⟨[], 0⟩⟩,
  ⟨⟨[2, 10, 10], 2⟩, ⟨[], 0⟩, ⟨[58], 1⟩, ⟨[], 0⟩, ⟨[], 0⟩, ⟨[], 0⟩, ⟨[], 0⟩, ⟨[], 0⟩, ⟨[], 0⟩, ⟨[], 0⟩⟩,
  ⟨⟨[7, 10, 7], 2⟩, ⟨[], 0⟩, ⟨[], 0⟩, ⟨[], 0⟩, ⟨[], 0⟩, ⟨[], 0⟩, ⟨[], 0⟩, ⟨[123, 0, 0, 0, 124, 0, 0, 0], 4⟩, ⟨[], 0⟩, ⟨[], 0⟩⟩,
  ⟨⟨[2, 10, 10], 2⟩, ⟨[], 0⟩, ⟨[58], 1⟩, ⟨[], 0⟩, ⟨[], 0⟩, ⟨[], 0⟩, ⟨[], 0⟩, ⟨[], 0⟩, ⟨[], 0⟩, ⟨[], 0⟩⟩,
  ⟨⟨[7, 7, 7], 2⟩, ⟨[], 0⟩, ⟨[], 0⟩, ⟨[], 0⟩, ⟨[], 0⟩, ⟨[], 0⟩, ⟨[], 0⟩, ⟨[101, 240, 0, 0, 100, 6, 0, 0, 45, 178, 0, 0], 8⟩, ⟨[], 0⟩, ⟨[], 0⟩⟩,
  ⟨⟨[2, 10, 10], 2⟩, ⟨[], 0⟩, ⟨[58], 1⟩, ⟨[], 0⟩, ⟨[], 0⟩, ⟨[], 0⟩, ⟨[], 0⟩, ⟨[], 0⟩, ⟨[], 0⟩, ⟨[], 0⟩⟩,
  ⟨⟨[3, 3, 7], 2⟩, ⟨[], 0⟩, ⟨[], 0⟩, ⟨[227, 6, 0, 0, 163, 33, 0, 0], 8⟩, ⟨[5, 5], 2⟩, ⟨[], 0⟩, ⟨[], 0⟩, ⟨[33, 63, 0, 0], 0⟩, ⟨[], 0⟩, ⟨[], 0⟩⟩,
  ⟨⟨[2, 10, 10], 2⟩, ⟨[], 0⟩, ⟨[35], 1⟩, ⟨[], 0⟩, ⟨[], 0⟩, ⟨[], 0⟩, ⟨[], 0⟩, ⟨[], 0⟩, ⟨[], 0⟩, ⟨[], 0⟩⟩,
  ⟨⟨[7, 10, 10], 2⟩, ⟨[], 0⟩, ⟨[], 0⟩, ⟨[], 0⟩, ⟨[], 0⟩, ⟨[], 0⟩, ⟨[], 0⟩, ⟨[9, 0, 0, 0], 4⟩, ⟨[], 0⟩, ⟨[], 0⟩⟩,
  ⟨⟨[12, 12, 12], 2⟩, ⟨[], 0⟩, ⟨[], 0⟩, ⟨[], 0⟩, ⟨[], 0⟩, ⟨[], 0⟩, ⟨[], 0⟩, ⟨[], 0⟩, ⟨[], 0⟩, ⟨[], 0⟩⟩]

def fixtureNames2 : List (List Nat) := [[73, 49, 55, 95, 48, 56, 55, 54, 53, 58, 50, 58, 49, 50, 51, 58, 54, 49, 53, 52, 49, 58, 48, 49, 55, 54, 51, 35, 57], [73, 49, 55, 95, 48, 56, 55, 54, 53, 58, 50, 58, 49, 50, 51, 58, 49, 54, 51, 54, 58, 48, 56, 54, 49, 49, 35, 57], []]

def fixtureTokens2 : List (List (Option Token)) := [
  ((((((((((((((List.replicate 128 (none : Option Token)).set 1 (some (.string [73, 49, 55]))).set 2 (some (.char 95))).set 3 (some (.paddedDigits 8765 5))).set 4 (some (.char 58))).set 5 (some (.digits 2))).set 6 (some (.char 58))).set 7 (some (.digits 123))).set 8 (some (.char 58))).set 9 (some (.digits 61541))).set 10 (some (.char 58))).set 11 (some (.paddedDigits 1763 5))).set 12 (some (.char 35))).set 13 (some (.digits 9))),
  ((((((((((((((List.replicate 128 (none : Option Token)).set 1 (some (.string [73, 49, 55]))).set 2 (some (.char 95))).set 3 (some (.paddedDigits 8765 5))).set 4 (some (.char 58))).set 5 (some (.digits 2))).set 6 (some (.char 58))).set 7 (some (.digits 123))).set 8 (some (.char 58))).set 9 (some (.digits 1636))).set 10 (some (.char 58))).set 11 (some (.paddedDigits 8611 5))).set 12 (some (.char 35))).set 13 (some (.digits 9))),
  (List.replicate 128 (none : Option Token))]

def fixtureName2Bytes : List Nat := [73, 49, 55, 95, 48, 56, 55, 54, 53, 58, 50, 58, 49, 50, 51, 58, 49, 54, 51, 54, 58, 48, 56, 54, 49, 49, 35, 57]

/-- Decoder state after reconstructing name 2 of the reference fixture: column
cursor positions, the name table and the token table. -/
def fixtureCols3 : List TokenReader := [
  ⟨⟨[6, 6, 6], 3⟩, ⟨[], 0⟩, ⟨[], 0⟩, ⟨[], 0⟩, ⟨[], 0⟩, ⟨[], 0⟩, ⟨[0, 0, 0, 0, 1, 0, 0, 0, 1, 0, 0, 0], 12⟩, ⟨[], 0⟩, ⟨[], 0⟩, ⟨[], 0⟩⟩,
  ⟨⟨[1, 10, 10], 3⟩, ⟨[73, 49, 55, 0], 4⟩, ⟨[], 0⟩, ⟨[], 0⟩, ⟨[], 0⟩, ⟨[], 0⟩, ⟨[], 0⟩, ⟨[], 0⟩, ⟨[], 0⟩, ⟨[], 0⟩⟩,
  ⟨⟨[2, 10, 10], 3⟩, ⟨[], 0⟩, ⟨[95], 1⟩, ⟨[], 0⟩, ⟨[], 0⟩, ⟨[], 0⟩, ⟨[], 0⟩, ⟨[], 0⟩, ⟨[], 0⟩, ⟨[], 0⟩⟩,
  ⟨⟨[3, 10, 10], 3⟩, ⟨[], 0⟩, ⟨[], 0⟩, ⟨[61, 34, 0, 0], 4⟩, ⟨[5], 1⟩, ⟨[], 0⟩, ⟨[], 0⟩, ⟨[], 0⟩, ⟨[], 0⟩, ⟨[], 0⟩⟩,
  ⟨⟨[2, 10, 10], 3⟩, ⟨[], 0⟩, ⟨[58], 1⟩, ⟨[], 0⟩, ⟨[], 0⟩, ⟨[], 0⟩, ⟨[], 0⟩, ⟨[], 0⟩, ⟨[], 0⟩, ⟨[], 0⟩⟩,
  ⟨⟨[7, 10, 10], 3⟩, ⟨[], 0⟩, ⟨[], 0⟩, ⟨[], 0⟩, ⟨[], 0⟩, ⟨[], 0⟩, ⟨[], 0⟩, ⟨[2, 0, 0, 0], 4⟩, ⟨[], 0⟩, ⟨[], 0⟩⟩,
  ⟨⟨[2, 10, 10], 3⟩, ⟨[], 0⟩, ⟨[58], 1⟩, ⟨[], 0⟩, ⟨[], 0⟩, ⟨[], 0⟩, ⟨[], 0⟩, ⟨[], 0⟩, ⟨[], 0⟩, ⟨[], 0⟩⟩,
  ⟨⟨[7, 10, 7], 3⟩, ⟨[], 0⟩, ⟨[], 0⟩, ⟨[], 0⟩, ⟨[], 0⟩, ⟨[], 0⟩, ⟨[], 0⟩, ⟨[123, 0, 0, 0, 124, 0, 0, 0], 8⟩, ⟨[], 0⟩, ⟨[], 0⟩⟩,
  ⟨⟨[2, 10, 10], 3⟩, ⟨[], 0⟩, ⟨[58], 1⟩, ⟨[], 0⟩, ⟨[], 0⟩, ⟨[], 0⟩, ⟨[], 0⟩, ⟨[], 0⟩, ⟨[], 0⟩, ⟨[], 0⟩⟩,
  ⟨⟨[7, 7, 7], 3⟩, ⟨[], 0⟩, ⟨[], 0⟩, ⟨[], 0⟩, ⟨[], 0⟩, ⟨[], 0⟩, ⟨[], 0⟩, ⟨[101, 240, 0, 0, 100, 6, 0, 0, 45, 178, 0, 0], 12⟩, ⟨[], 0⟩, ⟨[], 0⟩⟩,
  ⟨⟨[2, 10, 10], 3⟩, ⟨[], 0⟩, ⟨[58], 1⟩, ⟨[], 0⟩, ⟨[], 0⟩, ⟨[], 0⟩, ⟨[], 0⟩, ⟨[], 0⟩, ⟨[], 0⟩, ⟨[], 0⟩⟩,
  ⟨⟨[3, 3, 7], 3⟩, ⟨[], 0⟩, ⟨[], 0⟩, ⟨[227, 6, 0, 0, 163, 33, 0, 0], 8⟩, ⟨[5, 5], 2⟩, ⟨[], 0⟩, ⟨[], 0⟩, ⟨[33, 63, 0, 0], 4⟩, ⟨[], 0⟩, ⟨[], 0⟩⟩,
  ⟨⟨[2, 10, 10], 3⟩, ⟨[], 0⟩, ⟨[35], 1⟩, ⟨[], 0⟩, ⟨[], 0⟩, ⟨[], 0⟩, ⟨[], 0⟩, ⟨[], 0⟩, ⟨[], 0⟩, ⟨[], 0⟩⟩,
  ⟨⟨[7, 10, 10], 3⟩, ⟨[], 0⟩, ⟨[], 0⟩, ⟨[], 0⟩, ⟨[], 0⟩, ⟨[], 0⟩, ⟨[], 0⟩, ⟨[9, 0, 0, 0], 4⟩, ⟨[], 0⟩, ⟨[], 0⟩⟩,
  ⟨⟨[12, 12, 12], 3⟩, ⟨[], 0⟩, ⟨[], 0⟩, ⟨[], 0⟩, ⟨[], 0⟩, ⟨[], 0⟩, ⟨[], 0⟩, ⟨[], 0⟩, ⟨[], 0⟩, ⟨[], 0⟩⟩]

def fixtureNames3 : List (List Nat) := [[73, 49, 55, 95, 48, 56, 55, 54, 53, 58, 50, 58, 49, 50, 51, 58, 54, 49, 53, 52, 49, 58, 48, 49, 55, 54, 51, 35, 57], [73, 49, 55, 95, 48, 56, 55, 54, 53, 58, 50, 58, 49, 50, 51, 58, 49, 54, 51, 54, 58, 48, 56, 54, 49, 49, 35, 57], [73, 49, 55, 95, 48, 56, 55, 54, 53, 58, 50, 58, 49, 50, 52, 58, 52, 53, 54, 49, 51, 58, 49, 54, 49, 54, 49, 35, 57]]

def fixtureTokens3 : List (List (Option Token)) := [
  ((((((((((((((List.replicate 128 (none : Option Token)).set 1 (some (.string [73, 49, 55]))).set 2 (some (.char 95))).set 3 (some (.paddedDigits 8765 5))).set 4 (some (.char 58))).set 5 (some (.digits 2))).set 6 (some (.char 58))).set 7 (some (.digits 123))).set 8 (some (.char 58))).set 9 (some (.digits 61541))).set 10 (some (.char 58))).set 11 (some (.paddedDigits 1763 5))).set 12 (some (.char 35))).set 13 (some (.digits 9))),
  ((((((((((((((List.replicate 128 (none : Option Token)).set 1 (some (.string [73, 49, 55]))).set 2 (some (.char 95))).set 3 (some (.paddedDigits 8765 5))).set 4 (some (.char 58))).set 5 (some (.digits 2))).set 6 (some (.char 58))).set 7 (some (.digits 123))).set 8 (some (.char 58))).set 9 (some (.digits 1636))).set 10 (some (.char 58))).set 11 (some (.paddedDigits 8611 5))).set 12 (some (.char 35))).set 13 (some (.digits 9))),
  ((((((((((((((List.replicate 128 (none : Option Token)).set 1 (some (.string [73, 49, 55]))).set 2 (some (.char 95))).set 3 (some (.paddedDigits 8765 5))).set 4 (some (.char 58))).set 5 (some (.digits 2))).set 6 (some (.char 58))).set 7 (some (.digits 124))).set 8 (some (.char 58))).set 9 (some (.digits 45613))).set 10 (some (.char 58))).set 11 (some (.digits 16161))).set 12 (some (.char 35))).set 13 (some (.digits 9)))]

def fixtureName3Bytes : List Nat := [73, 49, 55, 95, 48, 56, 55, 54, 53, 58, 50, 58, 49, 50, 52, 58, 52, 53, 54, 49, 51, 58, 49, 54, 49, 54, 49, 35, 57]


/-- A complete 1-name block: column 0 introduced with the generic type tag
(type stream `[Diff]`, distance stream `[0, 0, 0, 0]`), column 1 introduced
with header byte `0x82` (new column, `Char` tag) and payload `[65]`, column 2
a type stream `[End]`.  Under the spec's demultiplexer contract, column 1's
type-tag stream would be pre-filled to `[2]` and the block would decode to
`"A" ++ NUL`. -/
def c2FailingBlock : List Nat :=
  [2, 0, 0, 0, 1, 0, 0, 0, 0] ++
  [0x80, 0x01, 0x06] ++ [0x06, 0x04, 0, 0, 0, 0] ++ [0x82, 0x01, 0x41] ++ [0x80, 0x01, 0x0C]

/-- A column store for one name whose column 0 yields `Diff` with distance 0:
columns 1 and 2 hold a fresh `Char` token and an `End` tag. -/
def diffZeroColumns : List TokenReader :=
  [{ TokenReader.default with type_reader := ⟨[6], 0⟩, diff_reader := ⟨[0, 0, 0, 0], 0⟩ },
   { TokenReader.default with type_reader := ⟨[2], 0⟩, char_reader := ⟨[65], 0⟩ },
   { TokenReader.default with type_reader := ⟨[12], 0⟩ }]

/-- A column 0 whose type stream yields the `Dup` tag with a duplicate
distance of 1 available on the duplicate-distance stream. -/
def dupTagColumn : TokenReader :=
  { TokenReader.default with type_reader := ⟨[5], 0⟩, dup_reader := ⟨[1, 0, 0, 0], 0⟩ }

/-- A column 0 whose type stream yields `Diff` with distance 1. -/
def diffOneColumn : TokenReader :=
  { TokenReader.default with type_reader := ⟨[6], 0⟩, diff_reader := ⟨[1, 0, 0, 0], 0⟩ }

/-- A column 0 whose type stream yields the `Char` tag (neither `Dup` nor
`Diff`). -/
def charTagColumn : TokenReader :=
  { TokenReader.default with type_reader := ⟨[2], 0⟩, char_reader := ⟨[65], 0⟩ }

/-- A column whose type stream yields `Delta` with increment 3 available. -/
def deltaColumn : TokenReader :=
  { TokenReader.default with type_reader := ⟨[8], 0⟩, delta_reader := ⟨[3], 0⟩ }

/-- A column whose type stream yields `Delta0` with increment 3 available. -/
def delta0Column : TokenReader :=
  { TokenReader.default with type_reader := ⟨[9], 0⟩, delta0_reader := ⟨[3], 0⟩ }

/-- A column whose type stream yields the `Match` tag. -/
def matchTagColumn : TokenReader :=
  { TokenReader.default with type_reader := ⟨[10], 0⟩ }

set_option maxRecDepth 100000

/-! Helper lemmas: classification of the error values each operation can
produce, and length preservation of the column-store updates. -/

theorem ByteCursor.readU8_error {c : ByteCursor} {e : DecErr} (h : c.readU8 = .error e) :
    e = .eof := by
  unfold ByteCursor.readU8 at h
  split at h <;> simp_all

theorem ByteCursor.readU32le_error {c : ByteCursor} {e : DecErr} (h : c.readU32le = .error e) :
    e = .eof := by
  unfold ByteCursor.readU32le at h
  split at h <;> simp_all

theorem TType.tryFrom_error {n : Nat} {e : DecErr} (h : TType.tryFrom n = .error e) :
    e = .invalidData := by
  unfold TType.tryFrom at h
  split at h <;> simp_all

theorem TokenReader.read_type_error {r : TokenReader} {e : DecErr}
    (h : r.read_type = .error e) : e = .eof ∨ e = .invalidData := by
  unfold TokenReader.read_type at h
  split at h
  · exact Or.inl (by cases h; exact ByteCursor.readU8_error (by assumption))
  · split at h
    · exact Or.inr (by cases h; exact TType.tryFrom_error (by assumption))
    · simp_all

theorem TokenReader.read_distance_error {r : TokenReader} {ty : TType} {e : DecErr}
    (h : r.read_distance ty = .error e) : e ≠ .outOfFuel := by
  unfold TokenReader.read_distance at h
  split at h
  · split at h
    · split at h
      · cases h; simp [ByteCursor.readU32le_error (by assumption)]
      · simp_all
    · cases h; simp
  · cases h; simp

theorem TokenReader.read_token_error {r : TokenReader} {prev : Option Token} {e : DecErr}
    (h : r.read_token prev = .error e) : e ≠ .outOfFuel := by
  unfold TokenReader.read_token at h
  split at h
  case h_1 =>
    cases h
    rcases TokenReader.read_type_error (by assumption) with h2 | h2 <;> simp [h2]
  case h_2 =>
    split at h
    case h_1 =>
      split at h
      · cases h; simp [ByteCursor.readU8_error (by assumption)]
      · simp_all
    case h_2 =>
      split at h
      split at h <;> cases h <;> simp
    case h_3 =>
      split at h
      · cases h; simp [ByteCursor.readU32le_error (by assumption)]
      · simp_all
    case h_4 =>
      split at h
      · cases h; simp [ByteCursor.readU32le_error (by assumption)]
      · split at h
        · cases h; simp [ByteCursor.readU8_error (by assumption)]
        · simp_all
    case h_5 =>
      split at h
      · cases h; simp [ByteCursor.readU8_error (by assumption)]
      · split at h <;> cases h <;> simp
    case h_6 =>
      split at h
      · cases h; simp [ByteCursor.readU8_error (by assumption)]
      · split at h <;> cases h <;> simp
    all_goals simp_all

theorem TokenReader.set_error {r : TokenReader} {ty : TType} {buf : List Nat} {e : DecErr}
    (h : r.set ty buf = .error e) : e = .panicked := by
  unfold TokenReader.set at h
  cases ty <;> simp_all

theorem setAt_error {b : List TokenReader} {t : Int} {ty : TType} {buf : List Nat} {e : DecErr}
    (h : setAt b t ty buf = .error e) : e = .panicked := by
  unfold setAt at h
  split at h
  · cases h; rfl
  · split at h
    · cases h; rfl
    · split at h
      · cases h; exact TokenReader.set_error (by assumption)
      · simp_all

theorem setAt_ok_length {b b2 : List TokenReader} {t : Int} {ty : TType} {buf : List Nat}
    (h : setAt b t ty buf = .ok b2) : b2.length = b.length := by
  unfold setAt at h
  split at h
  · simp_all
  · split at h
    · simp_all
    · split at h
      · simp_all
      · cases h; simp [List.length_set]

theorem demuxNewColumn_error {nNames : Nat} {b : List TokenReader} {t : Int}
    {ttype : Nat} {ty : TType} {e : DecErr}
    (h : demuxNewColumn nNames b t ttype ty = .error e) : e = .panicked := by
  unfold demuxNewColumn at h
  split at h
  · split at h
    · split at h
      · cases h; rfl
      · split at h
        · cases h; exact setAt_error (by assumption)
        · simp_all
    · simp_all
  · simp_all

theorem demuxNewColumn_ok_length {nNames : Nat} {b b2 : List TokenReader} {t t2 : Int}
    {ttype : Nat} {ty : TType}
    (h : demuxNewColumn nNames b t ttype ty = .ok (b2, t2)) :
    b2.length = b.length + (if (ttype / 128) % 2 = 1 then 1 else 0) := by
  unfold demuxNewColumn at h
  split at h
  · rename_i hnew
    rw [if_pos hnew]
    split at h
    · split at h
      · simp_all
      · split at h
        · simp_all
        · cases h
          rename_i hset
          rw [setAt_ok_length hset]
          simp
    · cases h
      simp
  · rename_i hnew
    rw [if_neg hnew]
    cases h
    simp

theorem nameLoop_ne_outOfFuel :
    ∀ (fuel : Nat) (b : List TokenReader) (names : List (List Nat))
      (tokens : List (List (Option Token))) (n m t : Nat),
      b.length ≤ t + fuel →
      nameLoop fuel b names tokens n m t ≠ .error .outOfFuel := by
  intro fuel
  induction fuel with
  | zero =>
    intro b names tokens n m t hb
    unfold nameLoop
    split
    · simp
    · split
      · simp
      · split
        · simp
        · rename_i rt hget
          have hlt : t < b.length := by
            rcases List.get?_eq_some.mp hget with ⟨hl, _⟩
            exact hl
          omega
  | succ f ih =>
    intro b names tokens n m t hb
    unfold nameLoop
    split
    · simp
    · split
      · simp
      · split
        · simp
        · rename_i rt hget
          split
          · rename_i e hrt
            simp only [ne_eq, Except.error.injEq]
            intro hcontra
            exact TokenReader.read_token_error hrt (by rw [hcontra])
          · simp
          · split
            · rename_i e2 heq
              simp only [ne_eq, Except.error.injEq]
              intro hcontra
              subst hcontra
              split at heq
              · cases heq
              · split at heq <;> cases heq <;> simp_all
            · split
              · simp
              · split
                · apply ih
                  simp only [List.length_set]
                  omega
                · simp

theorem decode_single_name_ne_outOfFuel (b : List TokenReader) (names : List (List Nat))
    (tokens : List (List (Option Token))) (n : Nat) :
    decode_single_name b names tokens n ≠ .error .outOfFuel := by
  unfold decode_single_name
  split
  · simp
  · split
    · rename_i e hrt
      simp only [ne_eq, Except.error.injEq]
      intro hc
      subst hc
      rcases TokenReader.read_type_error hrt with h2 | h2 <;> simp_all
    · split
      · rename_i e hrd
        simp only [ne_eq, Except.error.injEq]
        intro hc
        subst hc
        exact TokenReader.read_distance_error hrd rfl
      · split
        · simp
        · split
          · split
            · simp
            · split
              · split
                · simp
                · split <;> simp
              · simp
          · split
            · rename_i e hloop
              simp only [ne_eq, Except.error.injEq]
              intro hc
              subst hc
              exact nameLoop_ne_outOfFuel _ _ _ _ _ _ _ (by omega) hloop
            · split <;> simp

/-! Evaluation of the reference fixture, split per phase so each step reduces
once against an explicit literal. -/

theorem fixture_demux_rans :
    decode_token_byte_streams fixtureBackend fixtureBackend false 3 (ransBlockData.drop 9)
      = .ok fixtureColumns := by rfl

theorem fixture_demux_aac :
    decode_token_byte_streams fixtureBackend fixtureBackend true 3 (aacBlockData.drop 9)
      = .ok fixtureColumns := by rfl

theorem fixture_name0 :
    decode_single_name fixtureColumns (List.replicate 3 [])
        (List.replicate 3 (List.replicate 128 none)) 0
      = .ok (fixtureCols1, fixtureNames1, fixtureTokens1, fixtureName1Bytes) := by rfl

theorem fixture_name1 :
    decode_single_name fixtureCols1 fixtureNames1 fixtureTokens1 1
      = .ok (fixtureCols2, fixtureNames2, fixtureTokens2, fixtureName2Bytes) := by rfl

theorem fixture_name2 :
    decode_single_name fixtureCols2 fixtureNames2 fixtureTokens2 2
      = .ok (fixtureCols3, fixtureNames3, fixtureTokens3, fixtureName3Bytes) := by rfl

/-! The claims. -/

/-- Claim C1: decoding the reference 3-name compressed block yields exactly the
bytes of the three names `I17_08765:2:123:61541:01763#9`,
`I17_08765:2:123:1636:08611#9`, `I17_08765:2:124:45613:16161#9`, each
immediately followed by one NUL byte and concatenated with no other delimiter,
and the result is identical whether the block's back-end flag selects the
range coder (flag byte 0, `ransBlockData`) or the static arithmetic coder
(flag byte 1, `aacBlockData`).  The entropy back-ends are modelled from the
spec by their tabulated fixture graph (`fixtureBackend`). -/
theorem c1_fixture_roundtrip :
    decode fixtureBackend fixtureBackend ransBlockData = .ok expectedNameBytes ∧
    decode fixtureBackend fixtureBackend aacBlockData = .ok expectedNameBytes := by
  constructor
  · show decodeBody fixtureBackend fixtureBackend false 3 88 (ransBlockData.drop 9) = _
    unfold decodeBody
    rw [fixture_demux_rans]
    show decodeNamesLoop fixtureColumns (List.replicate 3 [])
      (List.replicate 3 (List.replicate 128 (none : Option Token))) 0 3 [] = _
    unfold decodeNamesLoop
    rw [fixture_name0]
    show decodeNamesLoop fixtureCols1 fixtureNames1 fixtureTokens1 1 2
      ([] ++ fixtureName1Bytes ++ [0]) = _
    unfold decodeNamesLoop
    rw [fixture_name1]
    show decodeNamesLoop fixtureCols2 fixtureNames2 fixtureTokens2 2 1
      (([] ++ fixtureName1Bytes ++ [0]) ++ fixtureName2Bytes ++ [0]) = _
    unfold decodeNamesLoop
    rw [fixture_name2]
    rfl
  · show decodeBody fixtureBackend fixtureBackend true 3 88 (aacBlockData.drop 9) = _
    unfold decodeBody
    rw [fixture_demux_aac]
    show decodeNamesLoop fixtureColumns (List.replicate 3 [])
      (List.replicate 3 (List.replicate 128 (none : Option Token))) 0 3 [] = _
    unfold decodeNamesLoop
    rw [fixture_name0]
    show decodeNamesLoop fixtureCols1 fixtureNames1 fixtureTokens1 1 2
      ([] ++ fixtureName1Bytes ++ [0]) = _
    unfold decodeNamesLoop
    rw [fixture_name1]
    show decodeNamesLoop fixtureCols2 fixtureNames2 fixtureTokens2 2 1
      (([] ++ fixtureName1Bytes ++ [0]) ++ fixtureName2Bytes ++ [0]) = _
    unfold decodeNamesLoop
    rw [fixture_name2]
    rfl

/-- Claim C2 (code bug): for a new-column sub-block whose tag is not the
generic type tag, the demultiplexer is claimed to pre-fill the column's
type-tag stream with `n_names` `Match` markers and overwrite position 0 with
the tag byte.  The code instead writes that buffer into the stream keyed by
the tag itself (`b[t].set(ty, buf)`), where it is immediately overwritten by
the sub-block's own payload, leaving the type-tag stream empty.  First
conjunct: demultiplexing a single new-`Char`-column sub-block with payload
`[65]` yields a column whose type-tag stream is empty (the claim requires
`[2]`) and whose char stream holds the payload.  Second conjunct: a complete
1-name block that would decode to `"A\x00"` under the claimed behavior instead
fails with `UnexpectedEof` when the reconstructor reads the empty type-tag
stream. -/
theorem c2_prefill_misdirected :
    decode_token_byte_streams idBackend idBackend false 1 [0x82, 0x01, 0x41]
      = .ok [{ TokenReader.default with char_reader := ⟨[65], 0⟩ }] ∧
    decode idBackend idBackend c2FailingBlock = .error .eof :=
  ⟨by rfl, by rfl⟩

/-- Claim C3 (counterexample): a reference distance of 0 read from column 0
does not fail the decode.  With column 0 yielding `Diff` at distance 0, the
name is reconstructed against its own (all-`None`) token list at the same
ordinal; fresh tokens decode normally, so name 0 decodes to `"A"` ([65]). -/
theorem c3_distance_zero_succeeds :
    decode_single_name diffZeroColumns [[]] [List.replicate 128 none] 0
      = .ok
          ([{ TokenReader.default with type_reader := ⟨[6], 1⟩, diff_reader := ⟨[0, 0, 0, 0], 4⟩ },
            { TokenReader.default with type_reader := ⟨[2], 1⟩, char_reader := ⟨[65], 1⟩ },
            { TokenReader.default with type_reader := ⟨[12], 1⟩ }],
           [[65]],
           [(List.replicate 128 (none : Option Token)).set 1 (some (.char 65))],
           [65]) := by rfl

/-- Claim C3 (amended): a reference distance exceeding the name ordinal
(`dist > n`) aborts the decode with a panic (`n - dist` underflows; in a
release build the wrapped value is an out-of-bounds index), not with a
returned error; a distance of 0 is not rejected (see the counterexample). -/
theorem c3_reference_distance (b : List TokenReader) (names : List (List Nat))
    (tokens : List (List (Option Token))) (n : Nat) (r0 r0a r0b : TokenReader)
    (ty : TType) (dist : Nat)
    (h0 : b.get? 0 = some r0)
    (hty : r0.read_type = .ok (ty, r0a))
    (hdist : r0a.read_distance ty = .ok (dist, r0b))
    (hgt : n < dist) :
    decode_single_name b names tokens n = .error .panicked := by
  unfold decode_single_name
  simp only [h0, hty, hdist, if_pos hgt]

theorem c3_reference_distance_witness :
    ([diffOneColumn].get? 0 = some diffOneColumn) ∧
    diffOneColumn.read_type = .ok (.tDiff, { diffOneColumn with type_reader := ⟨[6], 1⟩ }) ∧
    (0 : Nat) < 1 ∧
    decode_single_name [diffOneColumn] [[]] [List.replicate 128 none] 0 = .error .panicked :=
  ⟨rfl, rfl, by decide,
    c3_reference_distance [diffOneColumn] [[]] [List.replicate 128 none] 0 diffOneColumn
      { diffOneColumn with type_reader := ⟨[6], 1⟩ }
      { diffOneColumn with type_reader := ⟨[6], 1⟩, diff_reader := ⟨[1, 0, 0, 0], 4⟩ }
      .tDiff 1 rfl rfl rfl (by decide)⟩

/-- Claim C4 (counterexample): a duplicate sub-block (header `0xC0`: new
column + duplicate) whose source column index 1 exceeds the single column
decoded so far does not return an `InvalidReference` (`InvalidData`-style)
error value: the demultiplexer panics (out-of-bounds index `b[dup_pos]`),
modelled as `DecErr.panicked`, which is distinct from every returned
`io::Error` value. -/
theorem c4_dup_index_out_of_range_panics :
    decode_token_byte_streams idBackend idBackend false 1 [0xC0, 0x01, 0x00]
      = .error .panicked ∧ DecErr.panicked ≠ DecErr.invalidData :=
  ⟨by rfl, by decide⟩

/-- Claim C4 (amended): for every duplicate sub-block (header bit `0x40` set,
both header tags well-formed) whose one-byte source column index is at least
the number of columns decoded so far (after the header's own new-column
allocation), the demultiplexer aborts the whole block decode with a panic
(index out of bounds), not with a returned typed error. -/
theorem c4_dup_out_of_range (be : List Nat → Except DecErr (List Nat)) (nNames fuel : Nat)
    (b : List TokenReader) (t : Int) (ttype dup_pos dtb : Nat) (rest : List Nat)
    (ty dty : TType)
    (h40 : (ttype / 64) % 2 = 1)
    (hty : TType.tryFrom ttype = .ok ty)
    (hdt : TType.tryFrom dtb = .ok dty)
    (hpos : b.length + (if (ttype / 128) % 2 = 1 then 1 else 0) ≤ dup_pos) :
    demuxLoop be nNames (fuel + 1) b t (ttype :: dup_pos :: dtb :: rest)
      = .error .panicked := by
  unfold demuxLoop
  simp only [hty]
  cases hstep : demuxNewColumn nNames b t ttype ty with
  | error e => simp only [hstep, demuxNewColumn_error hstep]
  | ok bt =>
    obtain ⟨b2, t2⟩ := bt
    have hlen := demuxNewColumn_ok_length hstep
    have hnone : b2.get? dup_pos = none := List.get?_eq_none.mpr (by omega)
    simp only [hstep, h40, if_pos, readByte, hdt, hnone]

theorem c4_dup_out_of_range_witness :
    ((192 : Nat) / 64) % 2 = 1 ∧
    TType.tryFrom 192 = .ok .tType ∧
    TType.tryFrom 0 = .ok .tType ∧
    ([] : List TokenReader).length + (if ((192 : Nat) / 128) % 2 = 1 then 1 else 0) ≤ 1 ∧
    demuxLoop idBackend 1 1 [] (-1) [192, 1, 0] = .error .panicked :=
  ⟨by decide, by rfl, by rfl, by decide,
    c4_dup_out_of_range idBackend 1 0 [] (-1) 192 1 0 [] .tType .tType (by decide) rfl rfl
      (by decide)⟩

/-- Claim C5 (code bug): the claim (and the code's own `Dup` branch in
`decode_single_name`) requires a name whose column-0 tag is `Dup` at distance
`d` to be copied verbatim from the name `d` ordinals back.  The code's
`get_mut` has no `Type::Dup` arm, so `read_distance(Type::Dup)` hits
`unimplemented!()` and panics before the distance is even read: every block
containing a `Dup` name aborts.  First conjunct: the concrete failing input (a
column 0 whose type stream yields `Dup`, distance 1 available, decoding name
1).  Second conjunct: `read_distance` panics on `Dup` for every reader
state. -/
theorem c5_dup_name_panics :
    decode_single_name [dupTagColumn] [[], []]
        [List.replicate 128 none, List.replicate 128 none] 1 = .error .panicked ∧
    (∀ r : TokenReader, r.read_distance .tDup = .error .panicked) :=
  ⟨by rfl, fun r => by
    unfold TokenReader.read_distance
    rw [if_pos (Or.inl rfl)]⟩

/-- Claim C6: a `Delta` token reads a one-byte increment and, when the
reference token is `Digits v`, records `Digits (v + increment)` (`u32`
arithmetic; the hypothesis `v + increment < 2 ^ 32` pins the claim's addition
inside the `u32` domain), while every other reference token kind is an
`InvalidData` failure; analogously `Delta0` requires `PaddedDigits v width`
and yields `PaddedDigits (v + increment) width` with the width inherited
unchanged. -/
theorem c6_delta_tokens :
    (∀ (r r2 : TokenReader) (cur : ByteCursor) (d v : Nat),
      r.read_type = .ok (.tDelta, r2) →
      r2.delta_reader.readU8 = .ok (d, cur) →
      v + d < 2 ^ 32 →
      r.read_token (some (.digits v))
        = .ok (some (.digits (v + d)), { r2 with delta_reader := cur }) ∧
      (∀ prev : Option Token, (∀ w, prev ≠ some (.digits w)) →
        r.read_token prev = .error .invalidData)) ∧
    (∀ (r r2 : TokenReader) (cur : ByteCursor) (d v w : Nat),
      r.read_type = .ok (.tDelta0, r2) →
      r2.delta0_reader.readU8 = .ok (d, cur) →
      v + d < 2 ^ 32 →
      r.read_token (some (.paddedDigits v w))
        = .ok (some (.paddedDigits (v + d) w), { r2 with delta0_reader := cur }) ∧
      (∀ prev : Option Token, (∀ u u2, prev ≠ some (.paddedDigits u u2)) →
        r.read_token prev = .error .invalidData)) := by
  constructor
  · intro r r2 cur d v hty hd hlt
    constructor
    · unfold TokenReader.read_token
      simp only [hty, hd, Nat.mod_eq_of_lt hlt]
    · intro prev hprev
      unfold TokenReader.read_token
      simp only [hty, hd]
  · intro r r2 cur d v w hty hd hlt
    constructor
    · unfold TokenReader.read_token
      simp only [hty, hd, Nat.mod_eq_of_lt hlt]
    · intro prev hprev
      unfold TokenReader.read_token
      simp only [hty, hd]

theorem c6_delta_tokens_witness :
    deltaColumn.read_type = .ok (.tDelta, { deltaColumn with type_reader := ⟨[8], 1⟩ }) ∧
    (5 : Nat) + 3 < 2 ^ 32 ∧
    deltaColumn.read_token (some (.digits 5))
      = .ok (some (.digits 8),
          { deltaColumn with type_reader := ⟨[8], 1⟩, delta_reader := ⟨[3], 1⟩ }) ∧
    delta0Column.read_token (some (.paddedDigits 5 4))
      = .ok (some (.paddedDigits 8 4),
          { delta0Column with type_reader := ⟨[9], 1⟩, delta0_reader := ⟨[3], 1⟩ }) ∧
    deltaColumn.read_token (some (.paddedDigits 5 4)) = .error .invalidData :=
  ⟨rfl, by decide,
    (c6_delta_tokens.1 deltaColumn { deltaColumn with type_reader := ⟨[8], 1⟩ } ⟨[3], 1⟩ 3 5
      rfl rfl (by decide)).1,
    (c6_delta_tokens.2 delta0Column { delta0Column with type_reader := ⟨[9], 1⟩ } ⟨[3], 1⟩ 3 5 4
      rfl rfl (by decide)).1,
    (c6_delta_tokens.1 deltaColumn { deltaColumn with type_reader := ⟨[8], 1⟩ } ⟨[3], 1⟩ 3 5
      rfl rfl (by decide)).2 (some (.paddedDigits 5 4)) (fun w => by simp)⟩

/-- Claim C7: for every name ordinal, the type tag read from column 0 must be
`Dup` or `Diff`; any other tag makes `read_distance`'s `assert!` fail — a
panic that aborts the single-name decode and, through the per-name loop, the
decode of the whole block. -/
theorem c7_column0_tag (b : List TokenReader) (names : List (List Nat))
    (tokens : List (List (Option Token))) (n : Nat) (r0 r0a : TokenReader) (ty : TType)
    (h0 : b.get? 0 = some r0)
    (hty : r0.read_type = .ok (ty, r0a))
    (hd : ty ≠ .tDup) (hf : ty ≠ .tDiff) :
    decode_single_name b names tokens n = .error .panicked ∧
    (∀ (count : Nat) (dst : List Nat),
      decodeNamesLoop b names tokens n (count + 1) dst = .error .panicked) := by
  have hrd : r0a.read_distance ty = .error .panicked := by
    unfold TokenReader.read_distance
    rw [if_neg]
    rintro (h1 | h2)
    · exact hd h1
    · exact hf h2
  have hone : decode_single_name b names tokens n = .error .panicked := by
    unfold decode_single_name
    simp only [h0, hty, hrd]
  refine ⟨hone, fun count dst => ?_⟩
  unfold decodeNamesLoop
  simp only [hone]

theorem c7_column0_tag_witness :
    ([charTagColumn].get? 0 = some charTagColumn) ∧
    charTagColumn.read_type = .ok (.tChar, { charTagColumn with type_reader := ⟨[2], 1⟩ }) ∧
    (TType.tChar ≠ .tDup) ∧ (TType.tChar ≠ .tDiff) ∧
    decode_single_name [charTagColumn] [[]] [List.replicate 128 none] 0 = .error .panicked :=
  ⟨rfl, rfl, by decide, by decide,
    (c7_column0_tag [charTagColumn] [[]] [List.replicate 128 none] 0 charTagColumn
      { charTagColumn with type_reader := ⟨[2], 1⟩ } .tChar rfl rfl (by decide) (by decide)).1⟩

/-- Claim C8: `decode` reads, in order, a little-endian 32-bit uncompressed
length, a little-endian 32-bit name count and one flag byte, where flag value
1 selects the arithmetic back-end and any other value the range coder; a
source exhausted inside the 9 header bytes fails with `UnexpectedEof`
(`usize::try_from` on a `u32` cannot fail on a 64-bit target, so the
`InvalidData` branch is unreachable).  The last two conjuncts state that the
demultiplexer's behavior depends only on the back-end selected by the flag,
i.e. one flag governs every fresh column of the block. -/
theorem c8_block_header :
    (∀ (bkRans bkAac : List Nat → Except DecErr (List Nat))
       (b0 b1 b2 b3 b4 b5 b6 b7 f : Nat) (rest : List Nat),
       decode bkRans bkAac (b0 :: b1 :: b2 :: b3 :: b4 :: b5 :: b6 :: b7 :: f :: rest)
         = decodeBody bkRans bkAac (f == 1)
             (b4 + 256 * b5 + 65536 * b6 + 16777216 * b7)
             (b0 + 256 * b1 + 65536 * b2 + 16777216 * b3) rest) ∧
    (∀ (bkRans bkAac : List Nat → Except DecErr (List Nat)) (src : List Nat),
       src.length < 9 → decode bkRans bkAac src = .error .eof) ∧
    (∀ (bkRans bkRans2 bkAac : List Nat → Except DecErr (List Nat)) (n : Nat) (src : List Nat),
       decode_token_byte_streams bkRans bkAac true n src
         = decode_token_byte_streams bkRans2 bkAac true n src) ∧
    (∀ (bkRans bkAac bkAac2 : List Nat → Except DecErr (List Nat)) (n : Nat) (src : List Nat),
       decode_token_byte_streams bkRans bkAac false n src
         = decode_token_byte_streams bkRans bkAac2 false n src) := by
  refine ⟨fun bkR bkA b0 b1 b2 b3 b4 b5 b6 b7 f rest => rfl, ?_, fun _ _ _ _ _ => rfl,
    fun _ _ _ _ _ => rfl⟩
  intro bkR bkA src h
  rcases src with _ | ⟨a0, _ | ⟨a1, _ | ⟨a2, _ | ⟨a3, _ | ⟨a4, _ | ⟨a5, _ | ⟨a6, _ | ⟨a7, rest⟩⟩⟩⟩⟩⟩⟩⟩
  · rfl
  · rfl
  · rfl
  · rfl
  · rfl
  · rfl
  · rfl
  · rfl
  · have hz : rest.length = 0 := by
      simp only [List.length_cons] at h
      omega
    rw [List.eq_nil_of_length_eq_zero hz]
    rfl

theorem c8_block_header_witness :
    ([] : List Nat).length < 9 ∧ decode idBackend idBackend [] = .error .eof :=
  ⟨by decide, c8_block_header.2.1 idBackend idBackend [] (by decide)⟩

/-- Claim C9: the token walk of a name terminates within the number of
populated columns.  First conjunct: the walk's fuel bound — whenever the fuel
covers the remaining columns (`b.length ≤ t + fuel`), the walk never exhausts
its fuel: it stops by an `End`/absent token, by a propagated read failure, or
by the panic that models the out-of-bounds access at the end of the columns
(a fatal condition, not an infinite loop).  Second conjunct: the fuel
`decode_single_name` supplies (the number of populated columns) is always
sufficient. -/
theorem c9_walk_termination :
    (∀ (fuel : Nat) (b : List TokenReader) (names : List (List Nat))
       (tokens : List (List (Option Token))) (n m t : Nat),
       b.length ≤ t + fuel →
       nameLoop fuel b names tokens n m t ≠ .error .outOfFuel) ∧
    (∀ (b : List TokenReader) (names : List (List Nat))
       (tokens : List (List (Option Token))) (n : Nat),
       decode_single_name b names tokens n ≠ .error .outOfFuel) :=
  ⟨nameLoop_ne_outOfFuel, decode_single_name_ne_outOfFuel⟩

theorem c9_walk_termination_witness :
    ([] : List TokenReader).length ≤ 0 + 1 ∧
    nameLoop 1 [] [] [] 0 0 0 ≠ .error .outOfFuel :=
  ⟨by decide, c9_walk_termination.1 1 [] [] [] 0 0 0 (by decide)⟩

/-- Claim C10: when a `Match` tag is read at a column whose reference token
`tokens[m][t]` is `None`, `read_token` returns no token
(`prev_token.cloned()` of `None`), and the name's token walk stops at that
column with exactly the same successful result shape as an `End` tag — the
only state change is the consumed type-tag byte — and no error is raised. -/
theorem c10_match_without_reference (fuel : Nat) (b : List TokenReader)
    (names : List (List Nat)) (tokens : List (List (Option Token))) (n m t : Nat)
    (rowM : List (Option Token)) (rt rt2 : TokenReader)
    (htm : tokens.get? m = some rowM)
    (hrow : rowM.get? t = some (none : Option Token))
    (hbt : b.get? t = some rt)
    (hty : rt.read_type = .ok (.tMatch, rt2)) :
    rt.read_token none = .ok (none, rt2) ∧
    nameLoop fuel b names tokens n m t = .ok (b.set t rt2, names, tokens) ∧
    (∀ (r r2 : TokenReader) (p : Option Token),
      r.read_type = .ok (.tEnd, r2) → r.read_token p = .ok (none, r2)) := by
  have hmatch : rt.read_token none = .ok (none, rt2) := by
    unfold TokenReader.read_token
    simp only [hty]
  refine ⟨hmatch, ?_, ?_⟩
  · unfold nameLoop
    simp only [htm, hrow, hbt, hmatch]
  · intro r r2 p hend
    unfold TokenReader.read_token
    simp only [hend]

theorem c10_match_without_reference_witness :
    ([[(none : Option Token)]].get? 0 = some [none]) ∧
    ([(none : Option Token)].get? 0 = some none) ∧
    matchTagColumn.read_type = .ok (.tMatch, { matchTagColumn with type_reader := ⟨[10], 1⟩ }) ∧
    nameLoop 1 [matchTagColumn] [[]] [[none]] 0 0 0
      = .ok ([{ matchTagColumn with type_reader := ⟨[10], 1⟩ }], [[]], [[none]]) :=
  ⟨rfl, rfl, rfl,
    (c10_match_without_reference 1 [matchTagColumn] [[]] [[none]] 0 0 0 [none] matchTagColumn
      { matchTagColumn with type_reader := ⟨[10], 1⟩ } rfl rfl rfl rfl).2.1⟩

end NameTok
